import Mathlib

/-!
# remoterig-telegram-util-go: device orchestration of `main.go`

A shallow embedding of the rotator controller (`handleUpdate`, `rotateAndNotify`,
`getRotatorStatus`, `getHttpString`) and of the presence watcher
(`consumeFlexRabbit`, `handleFlexStateChange`) of `src/main.go`.

Conventions of the embedding:

* Go strings are Lean strings; `len` is the byte length, as in Go.
* Every interaction with the outside (HTTP exchange, chat message, MQTT publish,
  `time.Sleep`, `go` statement) is appended to the `trace` of the `World`, in program order.
* The outcome of the k-th `http.Get` of a run is given by an oracle `net : Nat → GetResult`.
* Whether the k-th `LoadFromPngFile` of a run finds its picture is given by an oracle
  `disk : Nat → String → Bool`; a load is counted in the `World` but not put on the trace.
* A run-time panic and `log.Fatal` are explicit results of `Flow`.
* Console output (`fmt.Printf`, `log.Print`) is not recorded.
-/

namespace RemoteRig

/-! ## The parts of the Go library that the program calls -/

/-- Go `len(s)` of a string: its number of bytes. -/
def len (s : String) : Nat := s.utf8ByteSize

/-- Go `strings.Split(s, sep)` for a separator of one ASCII character (the program only
splits on a blank and on a vertical bar): the pieces between the occurrences of `sep`,
always at least one piece. -/
def Split (s : String) (sep : Char) : List String :=
  (s.data.splitOn sep).map String.mk

/-- Go `strings.HasPrefix(s, pre)`. -/
def HasPrefix (s pre : String) : Bool := pre.data.isPrefixOf s.data

/-- Go `strings.ReplaceAll(s, old, new)` for `old` of one ASCII character. -/
def ReplaceAll (s : String) (old : Char) (new : String) : String :=
  new.intercalate (Split s old)

/-- Size in bits of the Go type `int` (64-bit platforms). -/
def intSize : Nat := 64

/-- The digits loop of `strconv.ParseUint` in base 10: any character that is not a decimal
digit is a syntax error. -/
def parseDigits : List Char → Nat → Option Nat
  | [], acc => some acc
  | c :: cs, acc =>
    if '0' ≤ c ∧ c ≤ '9' then parseDigits cs (acc * 10 + (c.toNat - '0'.toNat)) else none

/-- Go `strconv.Atoi(s)`: an optional sign, then one or more decimal digits, and the value
has to fit the type `int`. The result is `none` where Go returns `err != nil` (the callers
in `main.go` only look at the value when `err == nil`). -/
def Atoi (s : String) : Option Int :=
  let neg : Bool := s.data.head? = some '-'
  let digits : List Char :=
    if s.data.head? = some '-' ∨ s.data.head? = some '+' then s.data.tail else s.data
  if digits = [] then none
  else
    match parseDigits digits 0 with
    | none => none
    | some n =>
      if neg then (if n ≤ 2 ^ (intSize - 1) then some (-(n : Int)) else none)
      else (if n < 2 ^ (intSize - 1) then some (n : Int) else none)

/-- Go `strconv.Itoa(i)` and the verb `%d`: the decimal rendering of an integer. -/
def Itoa (i : Int) : String := toString i

/-- Go `unicode.ToUpper(r)`: ASCII is handled in place, every other rune goes through the
Unicode case tables, which are the parameter `table`. -/
def toUpperRune (table : Char → Char) (r : Char) : Char :=
  if r.toNat ≤ 0x7F then
    (if 'a' ≤ r ∧ r ≤ 'z' then Char.ofNat (r.toNat - ('a'.toNat - 'A'.toNat)) else r)
  else table r

/-- Go `strings.ToUpper(s)`: every rune is mapped by `unicode.ToUpper`. -/
def ToUpper (table : Char → Char) (s : String) : String :=
  String.mk (s.data.map (toUpperRune table))

/-- The `*http.Response` fields the program reads; `Body` is what `ioutil.ReadAll` yields. -/
structure Response where
  StatusCode : Int
  Body : String
  deriving DecidableEq

/-- The pair `(resp, err)` that `http.Get` returns. -/
inductive GetResult
  /-- The case `err == nil`, with a response. -/
  | ok (resp : Response)
  /-- The case `err != nil` and `resp == nil`: the exchange failed in the transport. -/
  | failed
  /-- The case `err != nil` with a response (a redirect that the client refused). -/
  | failedWithResponse (resp : Response)
  deriving DecidableEq

/-- The run-time panics the modelled code can raise. -/
inductive Panic
  | nilPointerDereference
  | indexOutOfRange
  deriving DecidableEq

/-! ## Data model -/

/-- The fields of `flex.DiscoveryPackage` that `main.go` reads; `rest` stands for the
remaining string fields of the library type. -/
structure DiscoveryPackage where
  Serial : String
  Status : String
  Inuse_ip : String
  Inuse_host : String
  rest : List String
  deriving DecidableEq

/-- The Go zero value `flex.DiscoveryPackage{}`. -/
def DiscoveryPackage.zero : DiscoveryPackage := ⟨"", "", "", "", []⟩

/-- The type `AppContext` without its handles (bot, MQTT client, mutex). -/
structure AppContext where
  AssetDir : String
  TelegramChat : Int
  Rotor1216IP : String
  LoopRotor1216IP : String
  Webswitch1216IP : String
  discoveryPackage : DiscoveryPackage
  rotationInProgress : Bool
  lastFlexStatus : String
  lastFlexStateString : String
  antrawlist : String
  deriving DecidableEq

/-- The fields of `tgbotapi.Update` the program reads (`update.Message` is not nil). -/
structure Update where
  ChatID : Int
  MessageID : Int
  Text : String
  deriving DecidableEq

/-- An image sent to the chat. -/
inductive Photo
  /-- The JPEG of `draw(context, png, from, to)`, loaded from the file `asset`. -/
  | drawn (asset : String) (fromDeg toDeg : Int)
  /-- Raw bytes under a file name. -/
  | bytes (name : String) (content : String)
  deriving DecidableEq

/-- What the program does to the outside world. -/
inductive Effect
  /-- A call of `http.Get(url)` made by the running function itself. -/
  | httpGet (url : String)
  /-- The statement `go getHttpString(url)`. -/
  | goHttpGet (url : String)
  /-- The call `time.Sleep(time.Second * seconds)`. -/
  | sleep (seconds : Nat)
  /-- An MQTT publish. -/
  | publish (topic payload : String)
  /-- A text message sent through the bot. -/
  | sendText (chat : Int) (replyTo : Option Int) (text : String)
  /-- A photo with a caption sent through the bot. -/
  | sendPhoto (chat : Int) (replyTo : Option Int) (photo : Photo) (caption : String)
  /-- The statement `go rotateAndNotify(update, addressOrIp, png, context, i)`. -/
  | goRotateAndNotify (update : Update) (addressOrIp png : String) (i : Int)
  deriving DecidableEq

/-- The program state together with the record of its interactions. -/
structure World where
  context : AppContext
  trace : List Effect
  requests : Nat
  loads : Nat
  deriving DecidableEq

/-- Appends one effect to the trace. -/
def World.emit (w : World) (e : Effect) : World :=
  { w with trace := w.trace ++ [e] }

/-- Records one `http.Get`: the effect, and the oracle moves on by one exchange. -/
def World.request (w : World) (url : String) : World :=
  { w with trace := w.trace ++ [Effect.httpGet url], requests := w.requests + 1 }

/-- Records one call of `draw2dimg.LoadFromPngFile`: the oracle moves on by one load. -/
def World.loaded (w : World) : World :=
  { w with loads := w.loads + 1 }

/-- Assignment to `context.rotationInProgress`. -/
def World.setRotationInProgress (w : World) (b : Bool) : World :=
  { w with context := { w.context with rotationInProgress := b } }

/-- How a piece of code ends. -/
inductive Flow (α : Type)
  /-- Control reaches the end of the piece with a value. -/
  | next (a : α) (w : World)
  /-- A `return` statement of the enclosing function was executed. -/
  | ret (w : World)
  /-- A run-time panic. -/
  | panic (p : Panic) (w : World)
  /-- The process exited through `log.Fatal`. -/
  | exit (w : World)
  deriving DecidableEq

/-- Sequencing: the continuation runs only when control reaches the end of the first piece. -/
def Flow.bind {α β : Type} (x : Flow α) (f : α → World → Flow β) : Flow β :=
  match x with
  | Flow.next a w => f a w
  | Flow.ret w => Flow.ret w
  | Flow.panic p w => Flow.panic p w
  | Flow.exit w => Flow.exit w

/-- The world in which a piece of code ended. -/
def Flow.world {α : Type} : Flow α → World
  | Flow.next _ w => w
  | Flow.ret w => w
  | Flow.panic _ w => w
  | Flow.exit w => w

/-! ## DeviceLink: `getHttpString` (main.go 482-500) -/

/-- The function `getHttpString(url)`. After `http.Get`, a non-nil `err` is printed and the
function goes on: `resp.StatusCode` dereferences `resp`, which is nil when the transport
failed. The named result `responseString` stays empty unless the status is 200. -/
def getHttpString (net : Nat → GetResult) (url : String) (w : World) : Flow String :=
  match net w.requests with
  | GetResult.failed => Flow.panic Panic.nilPointerDereference (w.request url)
  | GetResult.ok resp =>
    if resp.StatusCode = 200 then Flow.next resp.Body (w.request url)
    else Flow.next "" (w.request url)
  | GetResult.failedWithResponse resp =>
    if resp.StatusCode = 200 then Flow.next resp.Body (w.request url)
    else Flow.next "" (w.request url)

/-! ## RotatorController: `getRotatorStatus` (main.go 502-529) -/

/-- The function `getRotatorStatus(context, addressOrIp)`: `deg` starts at 1000, the device
is powered on, its state is requested, and `tokens[3]` of the reply split on the vertical
bar is parsed. Indexing `tokens[3]` panics when there are fewer than four tokens. -/
def getRotatorStatus (net : Nat → GetResult) (addressOrIp : String) (w : World) : Flow Int :=
  (getHttpString net ("http://" ++ addressOrIp ++ "/rotatorcontrol/set/power/on") w).bind
    fun _powerOn w1 =>
  (getHttpString net ("http://" ++ addressOrIp ++ "/rotatorcontrol/get") w1).bind
    fun getResult w2 =>
  let tokens := Split getResult '|'
  match tokens[3]? with
  | none => Flow.panic Panic.indexOutOfRange w2
  | some token =>
    match Atoi token with
    | none => Flow.next 1000 w2
    | some stateInt => Flow.next stateInt w2

/-! ## RotatorController: `rotateAndNotify` (main.go 442-480) -/

/-- The message `tgbotapi.NewMessage(update.Message.Chat.ID, text)` sent as a reply to the
update. -/
def reply (update : Update) (text : String) : Effect :=
  Effect.sendText update.ChatID (some update.MessageID) text

/-- The photo message that results when `draw(context, png, from, to)` has loaded its picture:
the drawn `rotor.jpg`, sent as a reply to the update. -/
def replyDrawn (update : Update) (context : AppContext) (png : String) (fromDeg toDeg : Int)
    (caption : String) : Effect :=
  Effect.sendPhoto update.ChatID (some update.MessageID)
    (Photo.drawn (context.AssetDir ++ "/" ++ png) fromDeg toDeg) caption

/-- The photo `rotor.jpg` sent as a reply to the update. -/
def replyPhoto (update : Update) (photo : Photo) (caption : String) : Effect :=
  Effect.sendPhoto update.ChatID (some update.MessageID) photo caption

/-- The function `draw(context, png, from, to)` (main.go 531-546), with the `jpeg.Encode` of
its result. The error of `LoadFromPngFile(context.AssetDir + "/" + png)` is dropped, and
when the picture did not load `gc.DrawImage(source)` dereferences the nil image. -/
def draw (disk : Nat → String → Bool) (png : String) (fromDeg toDeg : Int) (w : World) :
    Flow Photo :=
  if disk w.loads (w.context.AssetDir ++ "/" ++ png) then
    Flow.next (Photo.drawn (w.context.AssetDir ++ "/" ++ png) fromDeg toDeg) w.loaded
  else Flow.panic Panic.nilPointerDereference w.loaded

/-- The text of the timeout notification. -/
def timedOutText (i : Int) : String := "Rotation timed out - status is " ++ Itoa i ++ "°\n"

/-- The caption of the rotation-complete notification. -/
def doneCaption (i : Int) : String := "Rotation done, we're now looking at " ++ Itoa i ++ "°\n"

/-- The loop `for { ... }` of `rotateAndNotify`, entered with the current value of the
counter `seconds`. The counter grows by one for each sleep of two seconds, and the loop
leaves through the timeout branch once it exceeds 180. In the arrival branch the picture is
drawn first; the photo is sent and the flag cleared only after `draw` has returned. -/
def rotateLoop (net : Nat → GetResult) (disk : Nat → String → Bool) (update : Update)
    (addressOrIp png : String) (i : Int) (seconds : Nat) (w : World) : Flow Unit :=
  if h : seconds > 180 then
    Flow.ret ((w.emit (reply update (timedOutText i))).setRotationInProgress false)
  else
    (getRotatorStatus net addressOrIp w).bind fun deg w1 =>
      if deg = i then
        (draw disk png i (-1) w1).bind fun photo w2 =>
          Flow.ret ((w2.emit (replyPhoto update photo (doneCaption i))).setRotationInProgress
            false)
      else
        rotateLoop net disk update addressOrIp png i (seconds + 1) (w1.emit (Effect.sleep 2))
termination_by 181 - seconds
decreasing_by omega

/-- The function `rotateAndNotify(update, addressOrIp, png, context, i)`: raises the flag,
sends the move command, then polls. -/
def rotateAndNotify (net : Nat → GetResult) (disk : Nat → String → Bool) (update : Update)
    (addressOrIp png : String) (i : Int) (w : World) : Flow Unit :=
  (getHttpString net ("http://" ++ addressOrIp ++ "/rotatorcontrol/set/" ++ Itoa i)
      (w.setRotationInProgress true)).bind
    fun _ w1 => rotateLoop net disk update addressOrIp png i 0 w1

/-! ## SwitchPolicy: `handleFlexStateChange` (main.go 208-227) and `setAntenna` (229-232) -/

/-- The function `setAntenna(antStr, context)`. -/
def setAntenna (antStr : String) (w : World) : World :=
  w.emit (Effect.publish "ant/cmd" antStr)

/-- The function `handleFlexStateChange(context)`: after the settle delay, the relay and the
antenna are switched according to `len(context.lastFlexStateString) > 1`. -/
def handleFlexStateChange (w : World) : World :=
  let w1 := w.emit (Effect.sleep 3)
  if len w1.context.lastFlexStateString > 1 then
    let w2 := w1.emit (Effect.goHttpGet ("http://" ++ w1.context.Webswitch1216IP ++ "/relaycontrol/on/1"))
    let w3 := setAntenna "1a" w2
    w3.emit (Effect.sendText w3.context.TelegramChat none
      ("FLEX V3 ACTIVE (Kiwi disabled) current IP(s) connected: " ++ w3.context.lastFlexStateString))
  else
    let w2 := w1.emit (Effect.goHttpGet ("http://" ++ w1.context.Webswitch1216IP ++ "/relaycontrol/off/1"))
    let w3 := setAntenna "1b" w2
    w3.emit (Effect.sendText w3.context.TelegramChat none
      "PUBLIC KIWI IS ACTIVE, no user is connected to FLEX V3 at this moment")

/-! ## PresenceWatcher: the consumer loop of `consumeFlexRabbit` (main.go 191-203) -/

/-- One delivery `d` of the message channel: the time at which it is handled, and what
`json.Decoder.Decode` of its body does to the package it decodes into (a body that does not
decode leaves the package as it is). -/
structure Delivery where
  now : String
  decode : DiscoveryPackage → DiscoveryPackage

/-- The occupant identifier of a delivery: `context.discoveryPackage.Inuse_ip` after the
decoding. -/
def Delivery.occupant (d : Delivery) (w : World) : String :=
  (d.decode w.context.discoveryPackage).Inuse_ip

/-- The body of the loop `for d := range msgs` for one delivery. -/
def consumeDelivery (table : Char → Char) (w : World) (d : Delivery) : World :=
  let w1 : World :=
    { w with context := { w.context with
        lastFlexStatus := d.now, discoveryPackage := d.decode w.context.discoveryPackage } }
  if w1.context.lastFlexStateString ≠ ToUpper table w1.context.discoveryPackage.Inuse_ip then
    handleFlexStateChange
      { w1 with context := { w1.context with
          lastFlexStateString := ToUpper table w1.context.discoveryPackage.Inuse_ip } }
  else w1

/-- The loop `for d := range msgs` over the deliveries received so far. -/
def consumeFlexRabbit (table : Char → Char) (w : World) (msgs : List Delivery) : World :=
  msgs.foldl (consumeDelivery table) w

/-- The state in which `main` starts the watcher: a new `AppContext` filled from the command
line, with `context.lastFlexStateString = "Available"` (main.go 97). -/
def freshWorld (assetDir : String) (chat : Int) (rotor loopRotor webswitch antlist : String) :
    World :=
  { context :=
      { AssetDir := assetDir, TelegramChat := chat, Rotor1216IP := rotor,
        LoopRotor1216IP := loopRotor, Webswitch1216IP := webswitch,
        discoveryPackage := DiscoveryPackage.zero, rotationInProgress := false,
        lastFlexStatus := "", lastFlexStateString := "Available", antrawlist := antlist },
    trace := [], requests := 0, loads := 0 }

/-! ## Command dispatch: `handleUpdate` (main.go 241-441) -/

/-- The caption or text that reports a position. -/
def currentlyAtText (stateDegree : Int) : String :=
  "Rotator is currently at " ++ Itoa stateDegree ++ "°\n"

/-- The caption or text that announces a rotation. -/
def pleaseWaitText (stateDegree stateInt : Int) : String :=
  "Please wait, rotating from " ++ Itoa stateDegree ++ "° to " ++ Itoa stateInt ++ "°\n"

/-- The block `/flashes` (main.go 247-267): one `http.Get` of its own; `log.Fatal` on error. -/
def flashesBlock (net : Nat → GetResult) (update : Update) (w : World) : Flow Unit :=
  if HasPrefix update.Text "/flashes" then
    match net w.requests with
    | GetResult.ok response =>
      Flow.next () ((w.request "http://images.blitzortung.org/Images/image_b_eu.png").emit
        (Effect.sendPhoto update.ChatID (some update.MessageID)
          (Photo.bytes "flashes.png" response.Body)
          "Uuhhhh, Let's hope, that all flashes hit other antennas. Go check further details here: https://www.lightningmaps.org/blitzortung/europe/index.php?lang=en"))
    | _ => Flow.exit (w.request "http://images.blitzortung.org/Images/image_b_eu.png")
  else Flow.next () w

/-- The block `/flexstatus` (main.go 269-280). -/
def flexstatusBlock (update : Update) (w : World) : Flow Unit :=
  if HasPrefix update.Text "/flexstatus" then
    if w.context.discoveryPackage ≠ DiscoveryPackage.zero then
      Flow.next () (w.emit (reply update
        ("Last state: " ++ w.context.lastFlexStatus ++ "\r\n Radio "
          ++ w.context.discoveryPackage.Serial ++ " in state: '"
          ++ w.context.discoveryPackage.Status ++ "' " ++ w.context.discoveryPackage.Inuse_ip
          ++ " " ++ w.context.discoveryPackage.Inuse_host)))
    else Flow.next () (w.emit (reply update "Sorry, no idea..."))
  else Flow.next () w

/-- The blocks `/rotorstatus` (main.go 282-299) and `/loopstatus` (328-345), which differ in
the command, the device address and the picture. -/
def statusBlock (net : Nat → GetResult) (disk : Nat → String → Bool)
    (command addressOrIp png : String) (update : Update) (w : World) : Flow Unit :=
  if HasPrefix update.Text command then
    (getRotatorStatus net addressOrIp w).bind fun stateDegree w1 =>
      if stateDegree ≥ 0 ∧ stateDegree < 360 then
        (draw disk png stateDegree (-1) w1).bind fun photo w2 =>
          Flow.next () (w2.emit (replyPhoto update photo (currentlyAtText stateDegree)))
      else Flow.next () (w1.emit (reply update (currentlyAtText stateDegree)))
  else Flow.next () w

/-- The block `/setant` (main.go 301-313). -/
def setantBlock (update : Update) (w : World) : Flow Unit :=
  if HasPrefix update.Text "/setant" then
    let tokens := Split update.Text ' '
    if tokens.length ≠ 2 then Flow.ret (w.emit (reply update "That is an invalid command"))
    else Flow.next () (setAntenna (tokens.getD 1 "") w)
  else Flow.next () w

/-- The block `/getant` (main.go 315-326). -/
def getantBlock (update : Update) (w : World) : Flow Unit :=
  if HasPrefix update.Text "/getant" then
    Flow.next () (setAntenna "R" (w.emit (reply update
      (ReplaceAll w.context.antrawlist ';' "\r\n"
        ++ "\r\n\r\n A = Flex, B = KIWI & SDRs Splitter\r\n\r\n e.g. Flext to ant1 = '/setant 1A'"))))
  else Flow.next () w

/-- The blocks `/setrotor` (main.go 347-392) and `/setloop` (394-439), which differ in the
command, the device address and the picture. The guards come in the order of the source:
the number of tokens, the flag, the parse and the range; only then the device is queried
and the rotation task is started with `go`, after the announcement, whose picture has to
be drawn when the position read is between 0 and 360. -/
def setBlock (net : Nat → GetResult) (disk : Nat → String → Bool)
    (command addressOrIp png : String) (update : Update) (w : World) : Flow Unit :=
  if HasPrefix update.Text command then
    let tokens := Split update.Text ' '
    if tokens.length ≠ 2 then Flow.ret (w.emit (reply update "That is an invalid command"))
    else
      if w.context.rotationInProgress then
        Flow.ret (w.emit (reply update "Hey, wait my friend. Rotation is in progress!"))
      else
        match Atoi (tokens.getD 1 "") with
        | none =>
          Flow.ret (w.emit (reply update "That is an invalid command. Range must be in 0° - 359°"))
        | some stateInt =>
          if stateInt ≥ 360 ∨ stateInt ≤ -1 then
            Flow.ret (w.emit (reply update "That is an invalid command. Range must be in 0° - 359°"))
          else
            (getRotatorStatus net addressOrIp w).bind fun stateDegree w1 =>
              (if stateDegree ≥ 0 ∧ stateDegree ≤ 360 then
                (draw disk png stateDegree stateInt w1).bind fun photo w2 =>
                  Flow.next () (w2.emit
                    (replyPhoto update photo (pleaseWaitText stateDegree stateInt)))
              else
                Flow.next () (w1.emit (reply update (pleaseWaitText stateDegree stateInt)))).bind
                fun _ w3 =>
                  Flow.next () (w3.emit
                    (Effect.goRotateAndNotify update addressOrIp png stateInt))
  else Flow.next () w

/-- The function `handleUpdate(update, context)`: messages of other chats are ignored, then
the command blocks run one after the other. -/
def handleUpdate (net : Nat → GetResult) (disk : Nat → String → Bool) (update : Update)
    (w : World) : Flow Unit :=
  if update.ChatID ≠ w.context.TelegramChat then Flow.ret w
  else
    (flashesBlock net update w).bind fun _ w =>
    (flexstatusBlock update w).bind fun _ w =>
    (statusBlock net disk "/rotorstatus" w.context.Rotor1216IP "locator_opti.png" update
      w).bind fun _ w =>
    (setantBlock update w).bind fun _ w =>
    (getantBlock update w).bind fun _ w =>
    (statusBlock net disk "/loopstatus" w.context.LoopRotor1216IP "locator_loop.png" update
      w).bind fun _ w =>
    (setBlock net disk "/setrotor" w.context.Rotor1216IP "locator_opti.png" update w).bind
      fun _ w =>
    setBlock net disk "/setloop" w.context.LoopRotor1216IP "locator_loop.png" update w

/-! ## Observations on a trace -/

/-- The effects a run added to the trace of the world `w` it started in. -/
def newEffects {α : Type} (w : World) (r : Flow α) : List Effect :=
  r.world.trace.drop w.trace.length

/-- Whether the effect is an `http.Get` of the running function. -/
def Effect.isHttpGet : Effect → Bool
  | Effect.httpGet _ => true
  | _ => false

/-- Whether the effect is a message or a photo sent to the chat. -/
def Effect.isMessage : Effect → Bool
  | Effect.sendText _ _ _ => true
  | Effect.sendPhoto _ _ _ _ => true
  | _ => false

/-- The number of device exchanges in a trace. -/
def exchangeCount (t : List Effect) : Nat := t.countP Effect.isHttpGet

/-- The rotation tasks a trace starts, as (device address, target). -/
def startedRotations : List Effect → List (String × Int)
  | [] => []
  | Effect.goRotateAndNotify _ a _ i :: t => (a, i) :: startedRotations t
  | _ :: t => startedRotations t

/-- The number of position polls of the device at `addressOrIp` in a trace: the requests of
`/rotatorcontrol/get`, one for each call of `getRotatorStatus`. -/
def pollCount (addressOrIp : String) (t : List Effect) : Nat :=
  t.count (Effect.httpGet ("http://" ++ addressOrIp ++ "/rotatorcontrol/get"))

/-- The total time slept in a trace, in seconds. -/
def sleepSeconds : List Effect → Nat
  | [] => 0
  | Effect.sleep n :: t => n + sleepSeconds t
  | _ :: t => sleepSeconds t

/-- The messages and photos of a trace. -/
def notifications (t : List Effect) : List Effect := t.filter Effect.isMessage

/-! ## Notions used to state the theorems -/

/-- The response object of an exchange, when there is one. -/
def GetResult.response : GetResult → Option Response
  | GetResult.ok resp => some resp
  | GetResult.failed => none
  | GetResult.failedWithResponse resp => some resp

/-- The world after one call of `getRotatorStatus` that made both of its exchanges. -/
def World.polled (w : World) (addressOrIp : String) : World :=
  (w.request ("http://" ++ addressOrIp ++ "/rotatorcontrol/set/power/on")).request
    ("http://" ++ addressOrIp ++ "/rotatorcontrol/get")

/-- The value `getRotatorStatus` computes from the token at index 3. -/
def degreesOfToken (token : String) : Int :=
  match Atoi token with
  | some stateInt => stateInt
  | none => 1000

/-- The switch decision of the specification: relay state and antenna code, with the
text of the notification. -/
structure SwitchDecision where
  relayOn : Bool
  antennaCode : String
  message : String
  deriving DecidableEq

/-- The decision function `Decide(occupantValue)` of the specification, with the length
check of the source (`len`, the number of bytes): longer occupant strings than one byte
switch the relay on and select antenna `1a`, all others switch it off and select `1b`. -/
def Decide (occupantValue : String) : SwitchDecision :=
  if len occupantValue > 1 then
    ⟨true, "1a", "FLEX V3 ACTIVE (Kiwi disabled) current IP(s) connected: " ++ occupantValue⟩
  else
    ⟨false, "1b", "PUBLIC KIWI IS ACTIVE, no user is connected to FLEX V3 at this moment"⟩

/-- The effects by which a decision is applied for the switch at `webswitch`, with the
notification going to `chat`: settle delay, relay request, antenna command, notification. -/
def SwitchDecision.effects (d : SwitchDecision) (webswitch : String) (chat : Int) : List Effect :=
  [Effect.sleep 3,
   Effect.goHttpGet ("http://" ++ webswitch ++
     (if d.relayOn then "/relaycontrol/on/1" else "/relaycontrol/off/1")),
   Effect.publish "ant/cmd" d.antennaCode,
   Effect.sendText chat none d.message]

/-- The number of invocations of `handleFlexStateChange` recorded in a trace: each one
starts with the settle delay of three seconds, and nothing else sleeps that long. -/
def switchInvocations (t : List Effect) : Nat := t.count (Effect.sleep 3)

/-- The world after a delivery was received and decoded, before the comparison. -/
def Delivery.received (d : Delivery) (w : World) : World :=
  { w with context := { w.context with
      lastFlexStatus := d.now, discoveryPackage := d.decode w.context.discoveryPackage } }

/-- Assignment to `context.lastFlexStateString`. -/
def World.accept (w : World) (s : String) : World :=
  { w with context := { w.context with lastFlexStateString := s } }

/-- The position a call of `getRotatorStatus` reads when its power-on exchange has the
outcome `powerOn` and its get exchange the outcome `get`; `none` when the call panics. -/
def polledDegrees (powerOn get : GetResult) : Option Int :=
  match powerOn.response, get.response with
  | some _, some resp =>
    (Split (if resp.StatusCode = 200 then resp.Body else "") '|')[3]?.map degreesOfToken
  | _, _ => none

/-- The position reply to poll number `k` (from 0) of a rotation task whose move command is
exchange number `start`: the poll makes the exchanges `start + 1 + 2k` and `start + 2 + 2k`. -/
def positionReply (net : Nat → GetResult) (start k : Nat) : Option Int :=
  polledDegrees (net (start + 1 + 2 * k)) (net (start + 2 + 2 * k))

/-- The effects of `k` polls that did not read the target, each followed by its sleep. -/
def missTrace (addressOrIp : String) : Nat → List Effect
  | 0 => []
  | k + 1 =>
    missTrace addressOrIp k ++
      [Effect.httpGet ("http://" ++ addressOrIp ++ "/rotatorcontrol/set/power/on"),
       Effect.httpGet ("http://" ++ addressOrIp ++ "/rotatorcontrol/get"),
       Effect.sleep 2]

/-- The world after `k` polls that did not read the target, each followed by its sleep. -/
def World.afterMisses (w : World) (addressOrIp : String) : Nat → World
  | 0 => w
  | k + 1 => ((w.afterMisses addressOrIp k).polled addressOrIp).emit (Effect.sleep 2)

/-- The acceptance condition for the argument of a rotation command: no rotation is in
progress and the argument parses as an integer between 0 and 359. -/
def rotationAccepted (w : World) (arg : String) : Prop :=
  w.context.rotationInProgress = false ∧ ∃ t, Atoi arg = some t ∧ 0 ≤ t ∧ t ≤ 359

/-- The device address a rotation command drives, as `handleUpdate` passes it on. -/
def commandAddress (c : AppContext) (command : String) : String :=
  if command = "/setrotor" then c.Rotor1216IP else c.LoopRotor1216IP

/-- The picture a rotation command draws on, as `handleUpdate` passes it on. -/
def commandPicture (command : String) : String :=
  if command = "/setrotor" then "locator_opti.png" else "locator_loop.png"

/-! ## Concrete inputs used in the examples -/

/-- A state as `main` builds it, with the rotator at 10.0.0.2 and the chat 7. -/
def exampleWorld : World := freshWorld "assets" 7 "10.0.0.2" "10.0.0.3" "10.0.0.4" ""

/-- A command of the configured chat that asks for 90 degrees. -/
def exampleUpdate : Update := ⟨7, 42, "/setrotor 90"⟩

/-- A device that answers every exchange with a position of 287 degrees. -/
def deviceAt287 : Nat → GetResult := fun _ => GetResult.ok ⟨200, "X|Y|Z|287|W"⟩

/-- A device that reports 287 degrees, except in exchange number 10, where it reports 90:
for a task started at exchange 0, that is the fifth poll. -/
def deviceArriving : Nat → GetResult := fun k =>
  if k = 10 then GetResult.ok ⟨200, "X|Y|Z|90|W"⟩ else GetResult.ok ⟨200, "X|Y|Z|287|W"⟩

/-- The same command sent from another chat than the configured one. -/
def foreignUpdate : Update := ⟨5, 42, "/setrotor 90"⟩

/-- A device that reports 90 degrees in every exchange. -/
def deviceAt90 : Nat → GetResult := fun _ => GetResult.ok ⟨200, "X|Y|Z|90|W"⟩

/-- A disk on which every picture is found. -/
def diskComplete : Nat → String → Bool := fun _ _ => true

/-- A disk on which no picture is found, as when the asset directory does not exist. -/
def diskEmpty : Nat → String → Bool := fun _ _ => false

/-- A state as `main` builds it when no asset directory is given: `AssetDir` keeps the
default `NDEF` of its command-line flag. -/
def worldWithoutAssets : World := freshWorld "NDEF" 7 "10.0.0.2" "10.0.0.3" "10.0.0.4" ""

/-- A device that cannot be reached. -/
def deviceUnreachable : Nat → GetResult := fun _ => GetResult.failed

/-- Whether a rune is an ASCII lower-case letter. -/
def isAsciiLower (c : Char) : Bool := decide ('a' ≤ c ∧ c ≤ 'z')

/-- The world in which `rotateAndNotify` returns after `n` polls that missed the target and
one that read it. -/
def World.arrived (w : World) (update : Update) (addressOrIp png : String) (i : Int) (n : Nat) :
    World :=
  ((((((w.setRotationInProgress true).request
      ("http://" ++ addressOrIp ++ "/rotatorcontrol/set/" ++ Itoa i)).afterMisses addressOrIp
        n).polled addressOrIp).loaded).emit
    (replyDrawn update w.context png i (-1) (doneCaption i))).setRotationInProgress false

/-- The world in which `rotateAndNotify` returns after the timeout branch. -/
def World.timedOut (w : World) (update : Update) (addressOrIp : String) (i : Int) : World :=
  ((((w.setRotationInProgress true).request
      ("http://" ++ addressOrIp ++ "/rotatorcontrol/set/" ++ Itoa i)).afterMisses addressOrIp
        181).emit (reply update (timedOutText i))).setRotationInProgress false

/-- A delivery that reports the occupant 10.0.0.9. -/
def deliveryBusy : Delivery := ⟨"t1", fun p => { p with Inuse_ip := "10.0.0.9" }⟩

/-- A delivery that reports no occupant. -/
def deliveryIdle : Delivery := ⟨"t2", fun p => { p with Inuse_ip := "" }⟩

/-! ## Theorems: DeviceLink -/

theorem getHttpString_of_response (net : Nat → GetResult) (url : String) (w : World)
    (resp : Response) (h : (net w.requests).response = some resp) :
    getHttpString net url w
      = Flow.next (if resp.StatusCode = 200 then resp.Body else "") (w.request url) := by
  unfold getHttpString
  cases hn : net w.requests with
  | failed => simp [hn, GetResult.response] at h
  | ok r =>
    simp [hn, GetResult.response] at h
    subst h
    by_cases hs : r.StatusCode = 200 <;> simp [hs]
  | failedWithResponse r =>
    simp [hn, GetResult.response] at h
    subst h
    by_cases hs : r.StatusCode = 200 <;> simp [hs]

/-- C9: a transport error of `http.Get` (no response object, `err != nil`) does not make
`getHttpString` return the empty string: the function panics on `resp.StatusCode`, for
every URL and in every state. With a response object it does return: the body for status
200, the empty string for any other status. -/
theorem getHttpString_transport_error_panics (url : String) (w : World) :
    getHttpString (fun _ => GetResult.failed) url w
        = Flow.panic Panic.nilPointerDereference (w.request url)
      ∧ (∀ body, getHttpString (fun _ => GetResult.ok ⟨200, body⟩) url w
          = Flow.next body (w.request url))
      ∧ (∀ status body, status ≠ 200 →
          getHttpString (fun _ => GetResult.ok ⟨status, body⟩) url w
            = Flow.next "" (w.request url)) := by
  refine ⟨by simp [getHttpString], ?_, ?_⟩
  · intro body
    simp [getHttpString]
  · intro status body hs
    simp [getHttpString, hs]

/-! ## Theorems: `getRotatorStatus` -/

theorem request_requests (w : World) (url : String) :
    (w.request url).requests = w.requests + 1 := rfl

theorem getRotatorStatus_of_body (net : Nat → GetResult) (addressOrIp : String) (w : World)
    (powerOn : Response) (body : String)
    (hon : (net w.requests).response = some powerOn)
    (hget : (net (w.requests + 1)).response = some ⟨200, body⟩) :
    getRotatorStatus net addressOrIp w
      = match (Split body '|')[3]? with
        | none => Flow.panic Panic.indexOutOfRange (w.polled addressOrIp)
        | some token => Flow.next (degreesOfToken token) (w.polled addressOrIp) := by
  unfold getRotatorStatus
  rw [getHttpString_of_response net _ w powerOn hon]
  simp only [Flow.bind]
  rw [getHttpString_of_response net _ _ ⟨200, body⟩ (by rw [request_requests]; exact hget)]
  simp only [Flow.bind, if_true, World.polled]
  cases (Split body '|')[3]? with
  | none => rfl
  | some token =>
    simp only [degreesOfToken]
    cases Atoi token <;> rfl

/-- C5: when the power-on exchange has a reply (whatever it is) and the reply to
`/rotatorcontrol/get` has status 200 and a body of at least four fields, `getRotatorStatus`
returns without a panic, and its value is the integer of the field at index 3 when
`strconv.Atoi` accepts that field, and 1000 when it does not. Only the field at index 3
enters the value. -/
theorem getRotatorStatus_reads_fourth_field (net : Nat → GetResult) (addressOrIp : String)
    (w : World) (powerOn : Response) (body : String)
    (hon : (net w.requests).response = some powerOn)
    (hget : (net (w.requests + 1)).response = some ⟨200, body⟩)
    (hfields : 4 ≤ (Split body '|').length) :
    (∀ v, Atoi ((Split body '|').getD 3 "") = some v →
        getRotatorStatus net addressOrIp w = Flow.next v (w.polled addressOrIp))
      ∧ (Atoi ((Split body '|').getD 3 "") = none →
        getRotatorStatus net addressOrIp w = Flow.next 1000 (w.polled addressOrIp)) := by
  have hlt : 3 < (Split body '|').length := by omega
  have h3 : (Split body '|')[3]? = some ((Split body '|').getD 3 "") := by
    rw [List.getD_eq_getElem?_getD, List.getElem?_eq_getElem hlt]
    rfl
  rw [getRotatorStatus_of_body net addressOrIp w powerOn body hon hget, h3]
  constructor
  · intro v hv
    simp only [degreesOfToken, hv]
  · intro hv
    simp only [degreesOfToken, hv]

/-- Witness of C5: the body `X|Y|Z|287|W` gives 287, after a power-on exchange answered
with status 500. -/
theorem getRotatorStatus_reads_fourth_field_witness :
    getRotatorStatus
        (fun k => if k = 0 then GetResult.ok ⟨500, "no"⟩ else GetResult.ok ⟨200, "X|Y|Z|287|W"⟩)
        "10.0.0.2" (freshWorld "a" 7 "10.0.0.2" "10.0.0.3" "10.0.0.4" "")
      = Flow.next 287 ((freshWorld "a" 7 "10.0.0.2" "10.0.0.3" "10.0.0.4" "").polled "10.0.0.2") :=
  (getRotatorStatus_reads_fourth_field
    (fun k => if k = 0 then GetResult.ok ⟨500, "no"⟩ else GetResult.ok ⟨200, "X|Y|Z|287|W"⟩)
    "10.0.0.2" (freshWorld "a" 7 "10.0.0.2" "10.0.0.3" "10.0.0.4" "") ⟨500, "no"⟩ "X|Y|Z|287|W"
    (by decide) (by decide) (by decide)).1 287 (by decide)

/-- C6: on the body `bad`, which has one field, `getRotatorStatus` does not return the
sentinel 1000: indexing `tokens[3]` panics. The same happens for the empty body of an
exchange answered with a status other than 200, in every state and for every address. -/
theorem getRotatorStatus_short_body_panics (addressOrIp : String) (w : World) :
    getRotatorStatus (fun _ => GetResult.ok ⟨200, "bad"⟩) addressOrIp w
        = Flow.panic Panic.indexOutOfRange (w.polled addressOrIp)
      ∧ getRotatorStatus (fun _ => GetResult.ok ⟨404, "X|Y|Z|287|W"⟩) addressOrIp w
        = Flow.panic Panic.indexOutOfRange (w.polled addressOrIp) := by
  constructor
  · rw [getRotatorStatus_of_body (fun _ => GetResult.ok ⟨200, "bad"⟩) addressOrIp w
      ⟨200, "bad"⟩ "bad" rfl rfl]
    rfl
  · simp [getRotatorStatus, getHttpString, Flow.bind, World.polled]
    rfl

/-! ## Theorems: SwitchPolicy -/

theorem handleFlexStateChange_eq (w : World) :
    handleFlexStateChange w
      = { w with trace := w.trace ++
          ((Decide w.context.lastFlexStateString).effects w.context.Webswitch1216IP
            w.context.TelegramChat) } := by
  unfold handleFlexStateChange Decide SwitchDecision.effects
  by_cases h : len w.context.lastFlexStateString > 1
  · simp [h, World.emit, setAntenna]
  · simp [h, World.emit, setAntenna]

theorem handleFlexStateChange_context (w : World) :
    (handleFlexStateChange w).context = w.context := by
  rw [handleFlexStateChange_eq]

theorem switchInvocations_effects (d : SwitchDecision) (webswitch : String) (chat : Int) :
    switchInvocations (d.effects webswitch chat) = 1 := by
  simp [switchInvocations, SwitchDecision.effects, List.count_cons]

/-- C7: `handleFlexStateChange` appends to the trace the settle delay and then exactly the
effects of one decision, and that decision is a function of the last accepted presence
value `s` alone: relay on (`/relaycontrol/on/1`) and antenna `1a` when `len(s) > 1`, relay
off (`/relaycontrol/off/1`) and antenna `1b` when `len(s)` is 0 or 1. The context is not
changed. Here `len` is the byte length of Go. -/
theorem handleFlexStateChange_decision (w : World) :
    (∃ d : SwitchDecision,
        d = Decide w.context.lastFlexStateString
        ∧ handleFlexStateChange w
          = { w with trace := w.trace ++
              [Effect.sleep 3,
               Effect.goHttpGet ("http://" ++ w.context.Webswitch1216IP ++
                 (if d.relayOn then "/relaycontrol/on/1" else "/relaycontrol/off/1")),
               Effect.publish "ant/cmd" d.antennaCode,
               Effect.sendText w.context.TelegramChat none d.message] })
      ∧ (len w.context.lastFlexStateString > 1 →
          (Decide w.context.lastFlexStateString).relayOn = true
          ∧ (Decide w.context.lastFlexStateString).antennaCode = "1a")
      ∧ (len w.context.lastFlexStateString ≤ 1 →
          (Decide w.context.lastFlexStateString).relayOn = false
          ∧ (Decide w.context.lastFlexStateString).antennaCode = "1b") := by
  refine ⟨⟨_, rfl, ?_⟩, ?_, ?_⟩
  · rw [handleFlexStateChange_eq]
    rfl
  · intro h
    simp [Decide, h]
  · intro h
    have h2 : ¬ len w.context.lastFlexStateString > 1 := by omega
    simp [Decide, h2]

/-! ## Theorems: PresenceWatcher -/

theorem consumeDelivery_same (table : Char → Char) (w : World) (d : Delivery)
    (h : ToUpper table (d.occupant w) = w.context.lastFlexStateString) :
    consumeDelivery table w d = d.received w := by
  unfold consumeDelivery
  simp only [Delivery.occupant] at h
  simp [h, Delivery.received]

theorem consumeDelivery_changed (table : Char → Char) (w : World) (d : Delivery)
    (h : ToUpper table (d.occupant w) ≠ w.context.lastFlexStateString) :
    consumeDelivery table w d
      = handleFlexStateChange ((d.received w).accept (ToUpper table (d.occupant w))) := by
  unfold consumeDelivery
  simp only [Delivery.occupant] at h
  have h2 : ¬ w.context.lastFlexStateString
      = ToUpper table (d.decode w.context.discoveryPackage).Inuse_ip := fun e => h e.symm
  simp [h2, Delivery.received, World.accept, Delivery.occupant]

theorem consumeDelivery_last (table : Char → Char) (w : World) (d : Delivery) :
    (consumeDelivery table w d).context.lastFlexStateString = ToUpper table (d.occupant w) := by
  by_cases h : ToUpper table (d.occupant w) = w.context.lastFlexStateString
  · rw [consumeDelivery_same table w d h, h]
    rfl
  · rw [consumeDelivery_changed table w d h, handleFlexStateChange_context]
    rfl

theorem accept_received_trace (d : Delivery) (w : World) (s : String) :
    ((d.received w).accept s).trace = w.trace := rfl

theorem handleFlexStateChange_newEffects (w : World) :
    (handleFlexStateChange w).trace.drop w.trace.length
      = (Decide w.context.lastFlexStateString).effects w.context.Webswitch1216IP
          w.context.TelegramChat := by
  rw [handleFlexStateChange_eq]
  simp

/-- C8: one delivery with occupant identifier `x`, in a watcher whose last accepted value is
`L`. When `ToUpper(x) = L`, the delivery only refreshes the stored package and time:
nothing is appended to the trace (no call of `handleFlexStateChange`) and `L` stays. When
`ToUpper(x) ≠ L`, the last accepted value becomes `ToUpper(x)` and the result is that of
one call of `handleFlexStateChange` on it. Hence after a delivery `A`, a second delivery
with the same upper-cased identifier adds no invocation, and a following delivery `B` with
another upper-cased identifier adds exactly one, taken on `ToUpper(B)`. -/
theorem consumeFlexRabbit_debounce (table : Char → Char) (w : World) (d : Delivery) :
    (ToUpper table (d.occupant w) = w.context.lastFlexStateString →
        consumeDelivery table w d = d.received w
        ∧ (consumeDelivery table w d).trace = w.trace
        ∧ (consumeDelivery table w d).context.lastFlexStateString
            = w.context.lastFlexStateString)
      ∧ (ToUpper table (d.occupant w) ≠ w.context.lastFlexStateString →
        consumeDelivery table w d
            = handleFlexStateChange ((d.received w).accept (ToUpper table (d.occupant w)))
        ∧ (consumeDelivery table w d).context.lastFlexStateString
            = ToUpper table (d.occupant w)
        ∧ switchInvocations ((consumeDelivery table w d).trace.drop w.trace.length) = 1)
      ∧ (∀ a b : Delivery,
          ToUpper table (a.occupant (consumeDelivery table w d)) = ToUpper table (d.occupant w) →
          ToUpper table (b.occupant (consumeFlexRabbit table w [d, a]))
            ≠ ToUpper table (d.occupant w) →
          (consumeFlexRabbit table w [d, a]).trace = (consumeFlexRabbit table w [d]).trace
          ∧ (consumeFlexRabbit table w [d, a, b]).trace
              = (consumeFlexRabbit table w [d, a]).trace ++
                (Decide (ToUpper table (b.occupant (consumeFlexRabbit table w [d, a])))).effects
                  w.context.Webswitch1216IP w.context.TelegramChat
          ∧ switchInvocations ((consumeFlexRabbit table w [d, a, b]).trace.drop
              (consumeFlexRabbit table w [d]).trace.length) = 1) := by
  refine ⟨?_, ?_, ?_⟩
  · intro h
    rw [consumeDelivery_same table w d h]
    exact ⟨rfl, rfl, rfl⟩
  · intro h
    refine ⟨consumeDelivery_changed table w d h, consumeDelivery_last table w d, ?_⟩
    rw [consumeDelivery_changed table w d h]
    have := handleFlexStateChange_newEffects ((d.received w).accept (ToUpper table (d.occupant w)))
    rw [accept_received_trace] at this
    rw [this]
    exact switchInvocations_effects _ _ _
  · intro a b ha hb
    simp only [consumeFlexRabbit, List.foldl_cons, List.foldl_nil] at hb ⊢
    have hlast := consumeDelivery_last table w d
    have hsame : consumeDelivery table (consumeDelivery table w d) a
        = a.received (consumeDelivery table w d) :=
      consumeDelivery_same table _ a (by rw [ha, hlast])
    have hlast2 : (consumeDelivery table (consumeDelivery table w d) a).context.lastFlexStateString
        = ToUpper table (d.occupant w) := by
      rw [consumeDelivery_last, ha]
    have hchg := consumeDelivery_changed table
      (consumeDelivery table (consumeDelivery table w d) a) b (by rw [hlast2]; exact hb)
    have htr : (consumeDelivery table (consumeDelivery table w d) a).trace
        = (consumeDelivery table w d).trace := by rw [hsame]; rfl
    have hctx1 : (consumeDelivery table w d).context.Webswitch1216IP = w.context.Webswitch1216IP
        ∧ (consumeDelivery table w d).context.TelegramChat = w.context.TelegramChat := by
      by_cases h : ToUpper table (d.occupant w) = w.context.lastFlexStateString
      · rw [consumeDelivery_same table w d h]; exact ⟨rfl, rfl⟩
      · rw [consumeDelivery_changed table w d h, handleFlexStateChange_context]; exact ⟨rfl, rfl⟩
    have hctx2 : (consumeDelivery table (consumeDelivery table w d) a).context.Webswitch1216IP
          = w.context.Webswitch1216IP
        ∧ (consumeDelivery table (consumeDelivery table w d) a).context.TelegramChat
          = w.context.TelegramChat := by
      rw [hsame]; exact hctx1
    have hthird : (consumeDelivery table (consumeDelivery table (consumeDelivery table w d) a) b).trace
        = (consumeDelivery table (consumeDelivery table w d) a).trace ++
          (Decide (ToUpper table (b.occupant (consumeDelivery table (consumeDelivery table w d) a)))).effects
            w.context.Webswitch1216IP w.context.TelegramChat := by
      rw [hchg, handleFlexStateChange_eq]
      simp only [accept_received_trace]
      rw [← hctx2.1, ← hctx2.2]
      rfl
    refine ⟨htr, hthird, ?_⟩
    rw [hthird, htr]
    simp [switchInvocations_effects]

theorem toUpperRune_ascii_table : ∀ n, n < 128 →
    isAsciiLower (toUpperRune (fun c => c) (Char.ofNat n)) = false := by
  decide

theorem toUpperRune_not_lower (table : Char → Char)
    (htable : ∀ r : Char, 0x7F < r.toNat → isAsciiLower (table r) = false) (r : Char) :
    isAsciiLower (toUpperRune table r) = false := by
  by_cases h : r.toNat ≤ 0x7F
  · have h1 := toUpperRune_ascii_table r.toNat (by omega)
    rw [Char.ofNat_toNat] at h1
    simpa [toUpperRune, h] using h1
  · have h2 : toUpperRune table r = table r := by simp [toUpperRune, h]
    rw [h2]
    exact htable r (by omega)

theorem identity_table_not_lower :
    ∀ r : Char, 0x7F < r.toNat → isAsciiLower ((fun c : Char => c) r) = false := by
  intro r h
  have h2 : ¬ r ≤ 'z' := by
    intro hz
    have h3 : r.val.toNat ≤ ('z' : Char).val.toNat := UInt32.le_def.mp (Char.le_def.mp hz)
    have h4 : ('z' : Char).val.toNat = 122 := by decide
    have h5 : r.toNat = r.val.toNat := rfl
    omega
  simp [isAsciiLower, h2]

theorem ToUpper_ne_Available (table : Char → Char)
    (htable : ∀ r : Char, 0x7F < r.toNat → isAsciiLower (table r) = false) (x : String) :
    ToUpper table x ≠ "Available" := by
  intro h
  have hv : 'v' ∈ (ToUpper table x).data := by rw [h]; decide
  simp only [ToUpper, List.mem_map] at hv
  obtain ⟨r, _, hr⟩ := hv
  have := toUpperRune_not_lower table htable r
  rw [hr] at this
  exact absurd this (by decide)

/-- C10: in a watcher whose last accepted value is the initial `Available`, the first
delivery is a transition whatever its occupant identifier `x` is, the empty one included:
`ToUpper(x)` differs from `Available`, the last accepted value becomes `ToUpper(x)`, and
`handleFlexStateChange` runs exactly once, on that value. The Unicode case table is a
parameter; it is only required to map no rune outside ASCII to an ASCII lower-case letter. -/
theorem first_report_is_transition (table : Char → Char)
    (htable : ∀ r : Char, 0x7F < r.toNat → isAsciiLower (table r) = false)
    (w : World) (hfresh : w.context.lastFlexStateString = "Available") (d : Delivery) :
    ToUpper table (d.occupant w) ≠ "Available"
      ∧ consumeDelivery table w d
          = handleFlexStateChange ((d.received w).accept (ToUpper table (d.occupant w)))
      ∧ (consumeDelivery table w d).context.lastFlexStateString = ToUpper table (d.occupant w)
      ∧ switchInvocations ((consumeDelivery table w d).trace.drop w.trace.length) = 1
      ∧ (consumeDelivery table w d).trace
          = w.trace ++ (Decide (ToUpper table (d.occupant w))).effects
              w.context.Webswitch1216IP w.context.TelegramChat := by
  have hne := ToUpper_ne_Available table htable (d.occupant w)
  have hchg := consumeDelivery_changed table w d (by rw [hfresh]; exact hne)
  have htr : (consumeDelivery table w d).trace
      = w.trace ++ (Decide (ToUpper table (d.occupant w))).effects
          w.context.Webswitch1216IP w.context.TelegramChat := by
    rw [hchg, handleFlexStateChange_eq]
    rfl
  refine ⟨hne, hchg, consumeDelivery_last table w d, ?_, htr⟩
  rw [htr]
  simp [switchInvocations_effects]

/-- Witness of C10: an idle radio (empty occupant identifier) reported to the watcher that
`main` has just started switches the relay off and selects antenna `1b`. -/
theorem first_report_is_transition_witness :
    (consumeDelivery (fun c => c) (freshWorld "assets" 7 "10.0.0.2" "10.0.0.3" "10.0.0.4" "")
        ⟨"t0", fun p => { p with Inuse_ip := "" }⟩).trace
      = [Effect.sleep 3, Effect.goHttpGet "http://10.0.0.4/relaycontrol/off/1",
         Effect.publish "ant/cmd" "1b",
         Effect.sendText 7 none
           "PUBLIC KIWI IS ACTIVE, no user is connected to FLEX V3 at this moment"] :=
  (first_report_is_transition (fun c => c) identity_table_not_lower
    (freshWorld "assets" 7 "10.0.0.2" "10.0.0.3" "10.0.0.4" "") rfl
    ⟨"t0", fun p => { p with Inuse_ip := "" }⟩).2.2.2.2

/-! ## Theorems: `rotateAndNotify` -/

theorem getRotatorStatus_of_polledDegrees (net : Nat → GetResult) (addressOrIp : String)
    (w : World) (d : Int)
    (h : polledDegrees (net w.requests) (net (w.requests + 1)) = some d) :
    getRotatorStatus net addressOrIp w = Flow.next d (w.polled addressOrIp) := by
  unfold polledDegrees at h
  cases hon : (net w.requests).response with
  | none => simp [hon] at h
  | some powerOn =>
    cases hget : (net (w.requests + 1)).response with
    | none => simp [hon, hget] at h
    | some resp =>
      simp only [hon, hget] at h
      unfold getRotatorStatus
      rw [getHttpString_of_response net _ w powerOn hon]
      simp only [Flow.bind]
      rw [getHttpString_of_response net _ _ resp (by rw [request_requests]; exact hget)]
      simp only [Flow.bind]
      cases htok : (Split (if resp.StatusCode = 200 then resp.Body else "") '|')[3]? with
      | none => simp [htok] at h
      | some token =>
        simp only [htok, Option.map_some', Option.some.injEq] at h
        simp only [World.polled]
        unfold degreesOfToken at h
        cases hat : Atoi token with
        | none => simp only [hat] at h; rw [← h]
        | some v => simp only [hat] at h; rw [← h]

theorem rotateLoop_timeout (net : Nat → GetResult) (disk : Nat → String → Bool)
    (update : Update) (addressOrIp png : String) (i : Int) (seconds : Nat) (w : World)
    (h : 180 < seconds) :
    rotateLoop net disk update addressOrIp png i seconds w
      = Flow.ret ((w.emit (reply update (timedOutText i))).setRotationInProgress false) := by
  rw [rotateLoop]
  simp [h]

theorem rotateLoop_step (net : Nat → GetResult) (disk : Nat → String → Bool)
    (update : Update) (addressOrIp png : String) (i : Int) (seconds : Nat) (w : World)
    (h : seconds ≤ 180) :
    rotateLoop net disk update addressOrIp png i seconds w
      = (getRotatorStatus net addressOrIp w).bind fun deg w1 =>
          if deg = i then
            (draw disk png i (-1) w1).bind fun photo w2 =>
              Flow.ret ((w2.emit (replyPhoto update photo
                (doneCaption i))).setRotationInProgress false)
          else
            rotateLoop net disk update addressOrIp png i (seconds + 1)
              (w1.emit (Effect.sleep 2)) := by
  rw [rotateLoop]
  simp [Nat.not_lt.mpr h]

theorem afterMisses_requests (w : World) (addressOrIp : String) (k : Nat) :
    (w.afterMisses addressOrIp k).requests = w.requests + 2 * k := by
  induction k with
  | zero => rfl
  | succ k ih =>
    simp only [World.afterMisses, World.emit, World.polled, World.request, ih]
    omega

theorem afterMisses_trace (w : World) (addressOrIp : String) (k : Nat) :
    (w.afterMisses addressOrIp k).trace = w.trace ++ missTrace addressOrIp k := by
  induction k with
  | zero => simp [World.afterMisses, missTrace]
  | succ k ih =>
    simp [World.afterMisses, World.emit, World.polled, World.request, ih, missTrace]

theorem afterMisses_context (w : World) (addressOrIp : String) (k : Nat) :
    (w.afterMisses addressOrIp k).context = w.context := by
  induction k with
  | zero => rfl
  | succ k ih => simp [World.afterMisses, World.emit, World.polled, World.request, ih]

theorem afterMisses_loads (w : World) (addressOrIp : String) (k : Nat) :
    (w.afterMisses addressOrIp k).loads = w.loads := by
  induction k with
  | zero => rfl
  | succ k ih => simp [World.afterMisses, World.emit, World.polled, World.request, ih]

theorem rotateLoop_misses (net : Nat → GetResult) (disk : Nat → String → Bool)
    (update : Update) (addressOrIp png : String) (i : Int) (w : World) (m : Nat) :
    ∀ seconds, seconds + m ≤ 181 →
    (∀ j, j < m → ∃ d, polledDegrees (net (w.requests + 2 * j)) (net (w.requests + 2 * j + 1))
        = some d ∧ d ≠ i) →
    rotateLoop net disk update addressOrIp png i seconds w
      = rotateLoop net disk update addressOrIp png i (seconds + m)
          (w.afterMisses addressOrIp m) := by
  induction m with
  | zero => intro seconds _ _; rfl
  | succ m ih =>
    intro seconds hs hmiss
    rw [ih seconds (by omega) (fun j hj => hmiss j (by omega))]
    obtain ⟨d, hd, hne⟩ := hmiss m (by omega)
    rw [rotateLoop_step net disk update addressOrIp png i (seconds + m) _ (by omega)]
    rw [getRotatorStatus_of_polledDegrees net addressOrIp _ d
      (by rw [afterMisses_requests]; exact hd)]
    simp only [Flow.bind, hne, if_false]
    rfl

theorem powerOn_url_ne_get (a : String) :
    "http://" ++ a ++ "/rotatorcontrol/set/power/on" ≠ "http://" ++ a ++ "/rotatorcontrol/get" := by
  intro h
  have := congrArg String.data h
  simp [String.data_append] at this

theorem move_url_ne_get (a x : String) :
    "http://" ++ a ++ "/rotatorcontrol/set/" ++ x ≠ "http://" ++ a ++ "/rotatorcontrol/get" := by
  intro h
  have := congrArg String.data h
  simp [String.data_append] at this

theorem sleepSeconds_append (s t : List Effect) :
    sleepSeconds (s ++ t) = sleepSeconds s + sleepSeconds t := by
  induction s with
  | nil => simp [sleepSeconds]
  | cons e s ih =>
    cases e <;> simp [sleepSeconds, ih]
    omega

theorem pollCount_missTrace (a : String) (k : Nat) : pollCount a (missTrace a k) = k := by
  induction k with
  | zero => simp [pollCount, missTrace]
  | succ k ih =>
    unfold pollCount at ih ⊢
    simp [missTrace, List.count_append, ih, List.count_cons, powerOn_url_ne_get]

theorem sleepSeconds_missTrace (a : String) (k : Nat) : sleepSeconds (missTrace a k) = 2 * k := by
  induction k with
  | zero => simp [sleepSeconds, missTrace]
  | succ k ih =>
    simp [missTrace, sleepSeconds_append, ih, sleepSeconds]
    omega

theorem notifications_missTrace (a : String) (k : Nat) : notifications (missTrace a k) = [] := by
  induction k with
  | zero => simp [notifications, missTrace]
  | succ k ih =>
    unfold notifications at ih ⊢
    simp [missTrace, List.filter_append, ih, Effect.isMessage]

theorem rotateAndNotify_to_arrival (net : Nat → GetResult) (disk : Nat → String → Bool)
    (update : Update) (addressOrIp png : String) (i : Int) (w : World) (n : Nat) (hn : n ≤ 180)
    (hmove : (net w.requests).response ≠ none)
    (hmiss : ∀ k, k < n → ∃ d, positionReply net w.requests k = some d ∧ d ≠ i)
    (hhit : positionReply net w.requests n = some i) :
    rotateAndNotify net disk update addressOrIp png i w
      = (draw disk png i (-1) ((((w.setRotationInProgress true).request
          ("http://" ++ addressOrIp ++ "/rotatorcontrol/set/" ++ Itoa i)).afterMisses addressOrIp
            n).polled addressOrIp)).bind fun photo w2 =>
          Flow.ret ((w2.emit (replyPhoto update photo
            (doneCaption i))).setRotationInProgress false) := by
  obtain ⟨resp, hresp⟩ := Option.ne_none_iff_exists'.mp hmove
  unfold rotateAndNotify
  rw [getHttpString_of_response net _ (w.setRotationInProgress true) resp hresp]
  simp only [Flow.bind]
  rw [rotateLoop_misses net disk update addressOrIp png i _ n 0 (by omega) (by
    intro j hj
    obtain ⟨d, hd, hne⟩ := hmiss j hj
    refine ⟨d, ?_, hne⟩
    have e1 : w.requests + 1 + 2 * j + 1 = w.requests + 2 + 2 * j := by omega
    simp only [World.request, World.setRotationInProgress, e1]
    exact hd)]
  rw [rotateLoop_step net disk update addressOrIp png i (0 + n) _ (by omega)]
  rw [getRotatorStatus_of_polledDegrees net addressOrIp _ i (by
    rw [afterMisses_requests]
    have e1 : w.requests + 1 + 2 * n + 1 = w.requests + 2 + 2 * n := by omega
    simp only [World.request, World.setRotationInProgress, e1]
    exact hhit)]
  simp only [Flow.bind, if_true]

theorem arrival_world_facts (w : World) (addressOrIp x : String) (n : Nat) :
    ((((w.setRotationInProgress true).request x).afterMisses addressOrIp n).polled
        addressOrIp).loads = w.loads
      ∧ ((((w.setRotationInProgress true).request x).afterMisses addressOrIp n).polled
        addressOrIp).context.AssetDir = w.context.AssetDir
      ∧ ((((w.setRotationInProgress true).request x).afterMisses addressOrIp n).polled
        addressOrIp).context.rotationInProgress = true := by
  simp [World.polled, World.request, afterMisses_context, afterMisses_loads,
    World.setRotationInProgress]

theorem rotateAndNotify_arrives (net : Nat → GetResult) (disk : Nat → String → Bool)
    (update : Update) (addressOrIp png : String) (i : Int) (w : World) (n : Nat) (hn : n ≤ 180)
    (hmove : (net w.requests).response ≠ none)
    (hmiss : ∀ k, k < n → ∃ d, positionReply net w.requests k = some d ∧ d ≠ i)
    (hhit : positionReply net w.requests n = some i)
    (hdisk : disk w.loads (w.context.AssetDir ++ "/" ++ png) = true) :
    rotateAndNotify net disk update addressOrIp png i w
      = Flow.ret (w.arrived update addressOrIp png i n) := by
  rw [rotateAndNotify_to_arrival net disk update addressOrIp png i w n hn hmove hmiss hhit]
  obtain ⟨hl, ha, _⟩ := arrival_world_facts w addressOrIp
    ("http://" ++ addressOrIp ++ "/rotatorcontrol/set/" ++ Itoa i) n
  unfold draw
  rw [hl, ha, hdisk]
  simp only [if_true, Flow.bind, World.arrived, replyDrawn, replyPhoto]

theorem rotateAndNotify_arrival_panics (net : Nat → GetResult) (disk : Nat → String → Bool)
    (update : Update) (addressOrIp png : String) (i : Int) (w : World) (n : Nat) (hn : n ≤ 180)
    (hmove : (net w.requests).response ≠ none)
    (hmiss : ∀ k, k < n → ∃ d, positionReply net w.requests k = some d ∧ d ≠ i)
    (hhit : positionReply net w.requests n = some i)
    (hdisk : disk w.loads (w.context.AssetDir ++ "/" ++ png) = false) :
    rotateAndNotify net disk update addressOrIp png i w
      = Flow.panic Panic.nilPointerDereference
          (((((w.setRotationInProgress true).request
            ("http://" ++ addressOrIp ++ "/rotatorcontrol/set/" ++ Itoa i)).afterMisses
              addressOrIp n).polled addressOrIp).loaded) := by
  rw [rotateAndNotify_to_arrival net disk update addressOrIp png i w n hn hmove hmiss hhit]
  obtain ⟨hl, ha, _⟩ := arrival_world_facts w addressOrIp
    ("http://" ++ addressOrIp ++ "/rotatorcontrol/set/" ++ Itoa i) n
  unfold draw
  rw [hl, ha, hdisk]
  simp only [Bool.false_eq_true, if_false, Flow.bind]

theorem rotateAndNotify_times_out (net : Nat → GetResult) (disk : Nat → String → Bool)
    (update : Update) (addressOrIp png : String) (i : Int) (w : World)
    (hmove : (net w.requests).response ≠ none)
    (hmiss : ∀ k, k ≤ 180 → ∃ d, positionReply net w.requests k = some d ∧ d ≠ i) :
    rotateAndNotify net disk update addressOrIp png i w
      = Flow.ret (w.timedOut update addressOrIp i) := by
  obtain ⟨resp, hresp⟩ := Option.ne_none_iff_exists'.mp hmove
  unfold rotateAndNotify
  rw [getHttpString_of_response net _ (w.setRotationInProgress true) resp hresp]
  simp only [Flow.bind]
  rw [rotateLoop_misses net disk update addressOrIp png i _ 181 0 (by omega) (by
    intro j hj
    obtain ⟨d, hd, hne⟩ := hmiss j (by omega)
    refine ⟨d, ?_, hne⟩
    have e1 : w.requests + 1 + 2 * j + 1 = w.requests + 2 + 2 * j := by omega
    simp only [World.request, World.setRotationInProgress, e1]
    exact hd)]
  rw [rotateLoop_timeout net disk update addressOrIp png i (0 + 181) _ (by omega)]
  rfl

theorem arrived_trace (w : World) (update : Update) (addressOrIp png : String) (i : Int)
    (n : Nat) :
    (w.arrived update addressOrIp png i n).trace
      = w.trace ++ ([Effect.httpGet ("http://" ++ addressOrIp ++ "/rotatorcontrol/set/" ++ Itoa i)]
          ++ missTrace addressOrIp n
          ++ [Effect.httpGet ("http://" ++ addressOrIp ++ "/rotatorcontrol/set/power/on"),
              Effect.httpGet ("http://" ++ addressOrIp ++ "/rotatorcontrol/get"),
              replyDrawn update w.context png i (-1) (doneCaption i)]) := by
  simp [World.arrived, World.setRotationInProgress, World.emit, World.polled, World.request,
    World.loaded, afterMisses_trace]

theorem timedOut_trace (w : World) (update : Update) (addressOrIp : String) (i : Int) :
    (w.timedOut update addressOrIp i).trace
      = w.trace ++ ([Effect.httpGet ("http://" ++ addressOrIp ++ "/rotatorcontrol/set/" ++ Itoa i)]
          ++ missTrace addressOrIp 181
          ++ [reply update (timedOutText i)]) := by
  simp [World.timedOut, World.setRotationInProgress, World.emit, World.request,
    afterMisses_trace]

theorem getHttpString_cases (net : Nat → GetResult) (url : String) (w : World) :
    (∃ b w1, getHttpString net url w = Flow.next b w1)
      ∨ (∃ p w1, getHttpString net url w = Flow.panic p w1) := by
  unfold getHttpString
  cases net w.requests with
  | failed => exact Or.inr ⟨_, _, rfl⟩
  | ok r => by_cases h : r.StatusCode = 200 <;> simp [h]
  | failedWithResponse r => by_cases h : r.StatusCode = 200 <;> simp [h]

theorem getRotatorStatus_cases (net : Nat → GetResult) (addressOrIp : String) (w : World) :
    (∃ d w1, getRotatorStatus net addressOrIp w = Flow.next d w1)
      ∨ (∃ p w1, getRotatorStatus net addressOrIp w = Flow.panic p w1) := by
  unfold getRotatorStatus
  rcases getHttpString_cases net
    ("http://" ++ addressOrIp ++ "/rotatorcontrol/set/power/on") w with ⟨b, w1, h1⟩ | ⟨p, w1, h1⟩
  · rw [h1]
    simp only [Flow.bind]
    rcases getHttpString_cases net
      ("http://" ++ addressOrIp ++ "/rotatorcontrol/get") w1 with ⟨b2, w2, h2⟩ | ⟨p, w2, h2⟩
    · rw [h2]
      simp only [Flow.bind]
      cases (Split b2 '|')[3]? with
      | none => exact Or.inr ⟨_, _, rfl⟩
      | some token =>
        cases hat : Atoi token with
        | none => exact Or.inl ⟨1000, w2, by simp only [hat]⟩
        | some v => exact Or.inl ⟨v, w2, by simp only [hat]⟩
    · rw [h2]
      exact Or.inr ⟨_, _, rfl⟩
  · rw [h1]
    exact Or.inr ⟨_, _, rfl⟩

theorem getRotatorStatus_of_polledDegrees_none (net : Nat → GetResult) (addressOrIp : String)
    (w : World) (h : polledDegrees (net w.requests) (net (w.requests + 1)) = none) :
    ∃ p w1, getRotatorStatus net addressOrIp w = Flow.panic p w1 := by
  rcases getRotatorStatus_cases net addressOrIp w with ⟨d, w1, h1⟩ | hp
  · exfalso
    unfold polledDegrees at h
    unfold getRotatorStatus at h1
    cases hon : (net w.requests).response with
    | none =>
      have hf : net w.requests = GetResult.failed := by
        cases hn : net w.requests <;> simp [hn, GetResult.response] at hon
        rfl
      simp [getHttpString, hf, Flow.bind] at h1
    | some powerOn =>
      rw [getHttpString_of_response net _ w powerOn hon] at h1
      simp only [Flow.bind] at h1
      cases hget : (net (w.requests + 1)).response with
      | none =>
        have hf : net (w.requests + 1) = GetResult.failed := by
          cases hn : net (w.requests + 1) <;> simp [hn, GetResult.response] at hget
          rfl
        simp [getHttpString, World.request, hf, Flow.bind] at h1
      | some resp =>
        rw [getHttpString_of_response net _ _ resp
          (by rw [request_requests]; exact hget)] at h1
        simp only [Flow.bind] at h1
        simp only [hon, hget] at h
        cases htok : (Split (if resp.StatusCode = 200 then resp.Body else "") '|')[3]? with
        | none => simp [htok] at h1
        | some token => simp [htok] at h
  · exact hp

theorem draw_cases (disk : Nat → String → Bool) (png : String) (fromDeg toDeg : Int)
    (w : World) :
    draw disk png fromDeg toDeg w
        = Flow.next (Photo.drawn (w.context.AssetDir ++ "/" ++ png) fromDeg toDeg) w.loaded
      ∨ draw disk png fromDeg toDeg w = Flow.panic Panic.nilPointerDereference w.loaded := by
  unfold draw
  cases disk w.loads (w.context.AssetDir ++ "/" ++ png) <;> simp

theorem rotateLoop_outcome (net : Nat → GetResult) (disk : Nat → String → Bool)
    (update : Update) (addressOrIp png : String) (i : Int) (m : Nat) :
    ∀ seconds w, 181 - seconds ≤ m →
      (∃ w1, rotateLoop net disk update addressOrIp png i seconds w = Flow.ret w1
          ∧ w1.context.rotationInProgress = false)
        ∨ (∃ p w1, rotateLoop net disk update addressOrIp png i seconds w = Flow.panic p w1) := by
  induction m with
  | zero =>
    intro seconds w h
    rw [rotateLoop_timeout net disk update addressOrIp png i seconds w (by omega)]
    exact Or.inl ⟨_, rfl, rfl⟩
  | succ m ih =>
    intro seconds w h
    by_cases hs : 180 < seconds
    · rw [rotateLoop_timeout net disk update addressOrIp png i seconds w hs]
      exact Or.inl ⟨_, rfl, rfl⟩
    · rw [rotateLoop_step net disk update addressOrIp png i seconds w (by omega)]
      rcases getRotatorStatus_cases net addressOrIp w with ⟨d, w1, h1⟩ | ⟨p, w1, h1⟩
      · rw [h1]
        simp only [Flow.bind]
        by_cases hd : d = i
        · simp only [hd, if_true]
          rcases draw_cases disk png i (-1) w1 with hdraw | hdraw
          · rw [hdraw]
            exact Or.inl ⟨_, rfl, rfl⟩
          · rw [hdraw]
            exact Or.inr ⟨_, _, rfl⟩
        · simp only [hd, if_false]
          exact ih (seconds + 1) _ (by omega)
      · rw [h1]
        exact Or.inr ⟨_, _, rfl⟩

theorem rotateAndNotify_outcome (net : Nat → GetResult) (disk : Nat → String → Bool)
    (update : Update) (addressOrIp png : String) (i : Int) (w : World) :
    (∃ w1, rotateAndNotify net disk update addressOrIp png i w = Flow.ret w1
        ∧ w1.context.rotationInProgress = false)
      ∨ (∃ p w1, rotateAndNotify net disk update addressOrIp png i w = Flow.panic p w1) := by
  unfold rotateAndNotify
  rcases getHttpString_cases net ("http://" ++ addressOrIp ++ "/rotatorcontrol/set/" ++ Itoa i)
    (w.setRotationInProgress true) with ⟨b, w1, h1⟩ | ⟨p, w1, h1⟩
  · rw [h1]
    simp only [Flow.bind]
    exact rotateLoop_outcome net disk update addressOrIp png i 181 0 w1 (by omega)
  · rw [h1]
    exact Or.inr ⟨_, _, rfl⟩

theorem rotateAndNotify_returns (net : Nat → GetResult) (disk : Nat → String → Bool)
    (update : Update) (addressOrIp png : String) (i : Int) (w : World)
    (hmove : (net w.requests).response ≠ none)
    (hreply : ∀ k, k ≤ 180 → ∃ d, positionReply net w.requests k = some d)
    (hpicture : disk w.loads (w.context.AssetDir ++ "/" ++ png) = true
      ∨ ∀ k, k ≤ 180 → positionReply net w.requests k ≠ some i) :
    (∃ n, n ≤ 180 ∧ rotateAndNotify net disk update addressOrIp png i w
        = Flow.ret (w.arrived update addressOrIp png i n))
      ∨ rotateAndNotify net disk update addressOrIp png i w
        = Flow.ret (w.timedOut update addressOrIp i) := by
  by_cases h : ∃ k, k ≤ 180 ∧ positionReply net w.requests k = some i
  · left
    have hdisk : disk w.loads (w.context.AssetDir ++ "/" ++ png) = true := by
      rcases hpicture with hp | hp
      · exact hp
      · obtain ⟨k, hk, hik⟩ := h
        exact absurd hik (hp k hk)
    refine ⟨Nat.find h, (Nat.find_spec h).1, ?_⟩
    apply rotateAndNotify_arrives net disk update addressOrIp png i w (Nat.find h)
      (Nat.find_spec h).1 hmove _ (Nat.find_spec h).2 hdisk
    intro k hk
    obtain ⟨d, hd⟩ := hreply k (by have := (Nat.find_spec h).1; omega)
    refine ⟨d, hd, ?_⟩
    intro hdi
    exact Nat.find_min h hk ⟨by have := (Nat.find_spec h).1; omega, by rw [hd, hdi]⟩
  · right
    apply rotateAndNotify_times_out net disk update addressOrIp png i w hmove
    intro k hk
    obtain ⟨d, hd⟩ := hreply k hk
    refine ⟨d, hd, ?_⟩
    intro hdi
    exact h ⟨k, hk, by rw [hd, hdi]⟩

/-- C2: `rotateAndNotify` always ends, with a return or with a panic, and whenever it
returns the flag `rotationInProgress` is false, for every target, state, device and disk.
It does return, through the target-reached path or through the timeout path, whenever the
move command is answered, each of the polls (at most 181) reads a position, and the picture
of the rotation-complete photo loads or the target is never read. -/
theorem rotateAndNotify_clears_flag (net : Nat → GetResult) (disk : Nat → String → Bool)
    (update : Update) (addressOrIp png : String) (i : Int) (w : World) :
    (∀ w1, rotateAndNotify net disk update addressOrIp png i w = Flow.ret w1 →
        w1.context.rotationInProgress = false)
      ∧ ((∃ w1, rotateAndNotify net disk update addressOrIp png i w = Flow.ret w1)
          ∨ (∃ p w1, rotateAndNotify net disk update addressOrIp png i w = Flow.panic p w1))
      ∧ ((net w.requests).response ≠ none →
          (∀ k, k ≤ 180 → ∃ d, positionReply net w.requests k = some d) →
          (disk w.loads (w.context.AssetDir ++ "/" ++ png) = true
            ∨ ∀ k, k ≤ 180 → positionReply net w.requests k ≠ some i) →
          ((∃ n, n ≤ 180 ∧ rotateAndNotify net disk update addressOrIp png i w
                = Flow.ret (w.arrived update addressOrIp png i n))
            ∨ rotateAndNotify net disk update addressOrIp png i w
                = Flow.ret (w.timedOut update addressOrIp i))
          ∧ ∃ w1, rotateAndNotify net disk update addressOrIp png i w = Flow.ret w1
              ∧ w1.context.rotationInProgress = false) := by
  refine ⟨?_, ?_, ?_⟩
  · intro w1 h
    rcases rotateAndNotify_outcome net disk update addressOrIp png i w with
      ⟨w2, h2, hf⟩ | ⟨p, w2, h2⟩
    · rw [h2] at h
      injection h with h
      rw [← h]
      exact hf
    · rw [h2] at h
      cases h
  · rcases rotateAndNotify_outcome net disk update addressOrIp png i w with
      ⟨w2, h2, _⟩ | ⟨p, w2, h2⟩
    · exact Or.inl ⟨w2, h2⟩
    · exact Or.inr ⟨p, w2, h2⟩
  · intro hmove hreply hpicture
    have h := rotateAndNotify_returns net disk update addressOrIp png i w hmove hreply hpicture
    refine ⟨h, ?_⟩
    rcases h with ⟨n, _, h⟩ | h
    · exact ⟨_, h, rfl⟩
    · exact ⟨_, h, rfl⟩

/-- C4, as amended: when the move command is answered, the first `n` polls read positions
other than the target, poll number `n` reads the target, with `n ≤ 180` (which includes
every `n` below 90), and the picture `AssetDir/png` loads, `rotateAndNotify` returns after
exactly `n + 1` polls, having slept 2 seconds after each poll that missed (`2 * n` seconds
in all), with exactly one notification, the rotation-complete photo drawn at the target
angle, and with the flag cleared. -/
theorem rotateAndNotify_reaches_target (net : Nat → GetResult) (disk : Nat → String → Bool)
    (update : Update) (addressOrIp png : String) (i : Int) (w : World) (n : Nat) (hn : n ≤ 180)
    (hmove : (net w.requests).response ≠ none)
    (hmiss : ∀ k, k < n → ∃ d, positionReply net w.requests k = some d ∧ d ≠ i)
    (hhit : positionReply net w.requests n = some i)
    (hdisk : disk w.loads (w.context.AssetDir ++ "/" ++ png) = true) :
    ∃ w1, rotateAndNotify net disk update addressOrIp png i w = Flow.ret w1
      ∧ w1.trace = w.trace ++
          ([Effect.httpGet ("http://" ++ addressOrIp ++ "/rotatorcontrol/set/" ++ Itoa i)]
            ++ missTrace addressOrIp n
            ++ [Effect.httpGet ("http://" ++ addressOrIp ++ "/rotatorcontrol/set/power/on"),
                Effect.httpGet ("http://" ++ addressOrIp ++ "/rotatorcontrol/get"),
                replyDrawn update w.context png i (-1) (doneCaption i)])
      ∧ pollCount addressOrIp (w1.trace.drop w.trace.length) = n + 1
      ∧ sleepSeconds (w1.trace.drop w.trace.length) = 2 * n
      ∧ notifications (w1.trace.drop w.trace.length)
          = [Effect.sendPhoto update.ChatID (some update.MessageID)
              (Photo.drawn (w.context.AssetDir ++ "/" ++ png) i (-1))
              ("Rotation done, we're now looking at " ++ Itoa i ++ "°\n")]
      ∧ w1.context.rotationInProgress = false := by
  refine ⟨_, rotateAndNotify_arrives net disk update addressOrIp png i w n hn hmove hmiss hhit
    hdisk, arrived_trace w update addressOrIp png i n, ?_, ?_, ?_, rfl⟩
  · rw [arrived_trace, List.drop_left]
    unfold pollCount
    have := pollCount_missTrace addressOrIp n
    unfold pollCount at this
    simp [List.count_append, List.count_cons, this, move_url_ne_get, powerOn_url_ne_get,
      replyDrawn]
  · rw [arrived_trace, List.drop_left]
    simp [sleepSeconds_append, sleepSeconds_missTrace, sleepSeconds, replyDrawn]
  · rw [arrived_trace, List.drop_left]
    have := notifications_missTrace addressOrIp n
    unfold notifications at this ⊢
    simp [List.filter_append, this, Effect.isMessage, replyDrawn, doneCaption]

/-- Witness of C4: the device reports 90 in its fifth poll and the picture is on the disk;
the task makes 5 polls, sleeps 8 seconds and sends the one rotation-complete photo. -/
theorem rotateAndNotify_reaches_target_witness :
    ∃ w1, rotateAndNotify deviceArriving diskComplete exampleUpdate "10.0.0.2" "locator_opti.png"
          90 exampleWorld = Flow.ret w1
      ∧ pollCount "10.0.0.2" w1.trace = 5
      ∧ sleepSeconds w1.trace = 8
      ∧ notifications w1.trace
          = [Effect.sendPhoto 7 (some 42) (Photo.drawn "assets/locator_opti.png" 90 (-1))
              ("Rotation done, we're now looking at " ++ Itoa 90 ++ "°\n")]
      ∧ w1.context.rotationInProgress = false := by
  obtain ⟨w1, h1, _, h3, h4, h5, h6⟩ :=
    rotateAndNotify_reaches_target deviceArriving diskComplete exampleUpdate "10.0.0.2"
      "locator_opti.png" 90 exampleWorld 4 (by decide) (by decide)
      (by
        intro k hk
        refine ⟨287, ?_, by decide⟩
        interval_cases k <;> decide)
      (by decide) rfl
  exact ⟨w1, h1, h3, h4, h5, h6⟩

theorem deviceAt90_reply (start k : Nat) : positionReply deviceAt90 start k = some 90 := by
  show polledDegrees (GetResult.ok ⟨200, "X|Y|Z|90|W"⟩) (GetResult.ok ⟨200, "X|Y|Z|90|W"⟩)
    = some 90
  decide

/-- Counterexample to C4 as stated: the device reports the target 90 in the first poll
(`n = 0`), but the picture `NDEF/locator_opti.png` does not load. The task makes its one
poll and then panics in `draw`: it emits no notification at all, and the flag
`rotationInProgress` is left true. -/
theorem rotateAndNotify_no_photo_without_picture :
    positionReply deviceAt90 worldWithoutAssets.requests 0 = some 90
      ∧ ∃ w1, rotateAndNotify deviceAt90 diskEmpty exampleUpdate "10.0.0.2" "locator_opti.png"
            90 worldWithoutAssets = Flow.panic Panic.nilPointerDereference w1
        ∧ pollCount "10.0.0.2" w1.trace = 1
        ∧ notifications w1.trace = []
        ∧ w1.context.rotationInProgress = true := by
  refine ⟨deviceAt90_reply _ 0, _,
    rotateAndNotify_arrival_panics deviceAt90 diskEmpty exampleUpdate "10.0.0.2"
      "locator_opti.png" 90 worldWithoutAssets 0 (by decide)
      (by simp [deviceAt90, GetResult.response]) (fun k hk => absurd hk (by omega))
      (deviceAt90_reply _ 0) rfl, ?_, ?_, rfl⟩
  · have hmv := move_url_ne_get "10.0.0.2" (Itoa 90)
    have hon := powerOn_url_ne_get "10.0.0.2"
    simp only [pollCount, World.loaded, World.polled, World.request, World.afterMisses,
      World.setRotationInProgress, worldWithoutAssets, freshWorld, List.nil_append,
      List.cons_append, List.count_cons, List.count_nil, beq_iff_eq, Effect.httpGet.injEq,
      hmv, hon, if_false, if_true]
  · simp [notifications, World.loaded, World.polled, World.request, World.afterMisses,
      World.setRotationInProgress, worldWithoutAssets, freshWorld, Effect.isMessage]

theorem timeout_trace_observations (a x : String) (k : Nat) (chat : Int) (r : Option Int)
    (text : String) :
    pollCount a ([Effect.httpGet ("http://" ++ a ++ "/rotatorcontrol/set/" ++ x)]
        ++ missTrace a k ++ [Effect.sendText chat r text]) = k
      ∧ sleepSeconds ([Effect.httpGet ("http://" ++ a ++ "/rotatorcontrol/set/" ++ x)]
        ++ missTrace a k ++ [Effect.sendText chat r text]) = 2 * k
      ∧ notifications ([Effect.httpGet ("http://" ++ a ++ "/rotatorcontrol/set/" ++ x)]
        ++ missTrace a k ++ [Effect.sendText chat r text]) = [Effect.sendText chat r text] := by
  refine ⟨?_, ?_, ?_⟩
  · unfold pollCount
    have := pollCount_missTrace a k
    unfold pollCount at this
    simp [List.count_append, List.count_cons, this, move_url_ne_get]
  · simp [sleepSeconds_append, sleepSeconds_missTrace, sleepSeconds]
  · have := notifications_missTrace a k
    unfold notifications at this ⊢
    simp [List.filter_append, this, Effect.isMessage]

theorem deviceAt287_reply (start k : Nat) : positionReply deviceAt287 start k = some 287 := by
  show polledDegrees (GetResult.ok ⟨200, "X|Y|Z|287|W"⟩) (GetResult.ok ⟨200, "X|Y|Z|287|W"⟩)
    = some 287
  decide

/-- C3: with a device that never reports the target, `rotateAndNotify` does not stop after
90 polls and 180 seconds. The counter `seconds` grows by one for each sleep of two seconds
and the loop ends when it exceeds 180, so the task makes 181 polls and sleeps 362 seconds
before it sends the timeout notification. Shown for target 90 and a device at 287 degrees,
for every state, address, update and disk. -/
theorem rotateAndNotify_timeout_after_181_polls (disk : Nat → String → Bool) (update : Update)
    (addressOrIp png : String) (w : World) :
    ∃ w1, rotateAndNotify deviceAt287 disk update addressOrIp png 90 w = Flow.ret w1
      ∧ pollCount addressOrIp (w1.trace.drop w.trace.length) = 181
      ∧ sleepSeconds (w1.trace.drop w.trace.length) = 362
      ∧ notifications (w1.trace.drop w.trace.length) = [reply update (timedOutText 90)]
      ∧ w1.context.rotationInProgress = false := by
  have hobs := timeout_trace_observations addressOrIp (Itoa 90) 181 update.ChatID
    (some update.MessageID) (timedOutText 90)
  refine ⟨_, rotateAndNotify_times_out deviceAt287 disk update addressOrIp png 90 w
    (by simp [deviceAt287, GetResult.response])
    (fun k _ => ⟨287, deviceAt287_reply _ k, by decide⟩), ?_, ?_, ?_, rfl⟩
  · rw [timedOut_trace, List.drop_left]
    exact hobs.1
  · rw [timedOut_trace, List.drop_left]
    exact hobs.2.1
  · rw [timedOut_trace, List.drop_left]
    exact hobs.2.2

/-! ## Theorems: `handleUpdate` -/

theorem HasPrefix_exclusive (s p q : String) (hp : HasPrefix s p = true)
    (hq : ∀ t : List Char, q.data.isPrefixOf (p.data ++ t) = false) :
    HasPrefix s q = false := by
  obtain ⟨t, ht⟩ := List.isPrefixOf_iff_prefix.mp hp
  unfold HasPrefix
  rw [← ht]
  exact hq t

theorem Flow.bind_next (r : Flow Unit) : (r.bind fun _ w => Flow.next () w) = r := by
  cases r <;> rfl

theorem setBlock_skip (net : Nat → GetResult) (disk : Nat → String → Bool)
    (command a png : String) (update : Update) (w : World)
    (h : HasPrefix update.Text command = false) :
    setBlock net disk command a png update w = Flow.next () w := by
  simp [setBlock, h]

theorem statusBlock_skip (net : Nat → GetResult) (disk : Nat → String → Bool)
    (command a png : String) (update : Update) (w : World)
    (h : HasPrefix update.Text command = false) :
    statusBlock net disk command a png update w = Flow.next () w := by
  simp [statusBlock, h]

theorem handleUpdate_other_chat (net : Nat → GetResult) (disk : Nat → String → Bool)
    (update : Update) (w : World) (hchat : update.ChatID ≠ w.context.TelegramChat) :
    handleUpdate net disk update w = Flow.ret w := by
  unfold handleUpdate
  simp [hchat]

theorem handleUpdate_setrotor (net : Nat → GetResult) (disk : Nat → String → Bool)
    (update : Update) (w : World)
    (hchat : update.ChatID = w.context.TelegramChat)
    (hpre : HasPrefix update.Text "/setrotor" = true) :
    handleUpdate net disk update w
      = setBlock net disk "/setrotor" w.context.Rotor1216IP "locator_opti.png" update w := by
  have h1 := HasPrefix_exclusive update.Text "/setrotor" "/flashes" hpre (fun _ => rfl)
  have h2 := HasPrefix_exclusive update.Text "/setrotor" "/flexstatus" hpre (fun _ => rfl)
  have h3 := HasPrefix_exclusive update.Text "/setrotor" "/rotorstatus" hpre (fun _ => rfl)
  have h4 := HasPrefix_exclusive update.Text "/setrotor" "/setant" hpre (fun _ => rfl)
  have h5 := HasPrefix_exclusive update.Text "/setrotor" "/getant" hpre (fun _ => rfl)
  have h6 := HasPrefix_exclusive update.Text "/setrotor" "/loopstatus" hpre (fun _ => rfl)
  have h7 := HasPrefix_exclusive update.Text "/setrotor" "/setloop" hpre (fun _ => rfl)
  unfold handleUpdate
  simp only [hchat, ne_eq, not_true_eq_false, if_false, flashesBlock, flexstatusBlock,
    setantBlock, getantBlock, h1, h2, h4, h5, Flow.bind, Bool.false_eq_true,
    statusBlock_skip net disk _ _ _ update _ h3, statusBlock_skip net disk _ _ _ update _ h6,
    setBlock_skip net disk _ _ _ update _ h7]
  exact Flow.bind_next _

theorem handleUpdate_setloop (net : Nat → GetResult) (disk : Nat → String → Bool)
    (update : Update) (w : World)
    (hchat : update.ChatID = w.context.TelegramChat)
    (hpre : HasPrefix update.Text "/setloop" = true) :
    handleUpdate net disk update w
      = setBlock net disk "/setloop" w.context.LoopRotor1216IP "locator_loop.png" update w := by
  have h1 := HasPrefix_exclusive update.Text "/setloop" "/flashes" hpre (fun _ => rfl)
  have h2 := HasPrefix_exclusive update.Text "/setloop" "/flexstatus" hpre (fun _ => rfl)
  have h3 := HasPrefix_exclusive update.Text "/setloop" "/rotorstatus" hpre (fun _ => rfl)
  have h4 := HasPrefix_exclusive update.Text "/setloop" "/setant" hpre (fun _ => rfl)
  have h5 := HasPrefix_exclusive update.Text "/setloop" "/getant" hpre (fun _ => rfl)
  have h6 := HasPrefix_exclusive update.Text "/setloop" "/loopstatus" hpre (fun _ => rfl)
  have h7 := HasPrefix_exclusive update.Text "/setloop" "/setrotor" hpre (fun _ => rfl)
  unfold handleUpdate
  simp only [hchat, ne_eq, not_true_eq_false, if_false, flashesBlock, flexstatusBlock,
    setantBlock, getantBlock, h1, h2, h4, h5, Flow.bind, Bool.false_eq_true,
    statusBlock_skip net disk _ _ _ update _ h3, statusBlock_skip net disk _ _ _ update _ h6,
    setBlock_skip net disk _ _ _ update _ h7]

theorem handleUpdate_command (net : Nat → GetResult) (disk : Nat → String → Bool)
    (update : Update) (w : World)
    (command : String) (hcmd : command = "/setrotor" ∨ command = "/setloop")
    (hchat : update.ChatID = w.context.TelegramChat)
    (hpre : HasPrefix update.Text command = true) :
    handleUpdate net disk update w
      = setBlock net disk command (commandAddress w.context command) (commandPicture command)
          update w := by
  rcases hcmd with h | h
  · subst h
    rw [handleUpdate_setrotor net disk update w hchat hpre]
    rfl
  · subst h
    rw [handleUpdate_setloop net disk update w hchat hpre]
    rfl

theorem setBlock_rejected (net : Nat → GetResult) (disk : Nat → String → Bool)
    (command a png : String) (update : Update)
    (w : World) (cmd arg : String)
    (hpre : HasPrefix update.Text command = true)
    (htok : Split update.Text ' ' = [cmd, arg])
    (hrej : ¬ rotationAccepted w arg) :
    setBlock net disk command a png update w
        = Flow.ret (w.emit (reply update "Hey, wait my friend. Rotation is in progress!"))
      ∨ setBlock net disk command a png update w
        = Flow.ret (w.emit (reply update
            "That is an invalid command. Range must be in 0° - 359°")) := by
  unfold setBlock
  simp only [hpre, htok, if_true, List.length_cons, List.length_nil, ne_eq,
    not_true_eq_false, if_false, List.getD_cons_succ, List.getD_cons_zero]
  cases hflag : w.context.rotationInProgress with
  | true => left; simp
  | false =>
    right
    simp only [Bool.false_eq_true, if_false]
    cases hat : Atoi arg with
    | none => rfl
    | some t =>
      simp only
      by_cases hr : t ≥ 360 ∨ t ≤ -1
      · simp only [hr, if_true]
      · exfalso
        apply hrej
        refine ⟨hflag, t, hat, ?_, ?_⟩ <;> omega

theorem setBlock_accepted (net : Nat → GetResult) (disk : Nat → String → Bool)
    (command a png : String) (update : Update)
    (w : World) (cmd arg : String) (t : Int)
    (hpre : HasPrefix update.Text command = true)
    (htok : Split update.Text ' ' = [cmd, arg])
    (hflag : w.context.rotationInProgress = false)
    (hat : Atoi arg = some t) (h0 : 0 ≤ t) (h359 : t ≤ 359) :
    setBlock net disk command a png update w
      = (getRotatorStatus net a w).bind fun stateDegree w1 =>
          (if stateDegree ≥ 0 ∧ stateDegree ≤ 360 then
            (draw disk png stateDegree t w1).bind fun photo w2 =>
              Flow.next () (w2.emit (replyPhoto update photo (pleaseWaitText stateDegree t)))
          else
            Flow.next () (w1.emit (reply update (pleaseWaitText stateDegree t)))).bind
            fun _ w3 => Flow.next () (w3.emit (Effect.goRotateAndNotify update a png t)) := by
  unfold setBlock
  have hr : ¬ (t ≥ 360 ∨ t ≤ -1) := by omega
  simp only [hpre, htok, if_true, List.length_cons, List.length_nil, ne_eq,
    not_true_eq_false, if_false, List.getD_cons_succ, List.getD_cons_zero, hflag,
    Bool.false_eq_true, hat, hr]

theorem newEffects_emit_reply (w : World) (update : Update) (text : String) :
    newEffects w (Flow.ret (w.emit (reply update text)) : Flow Unit) = [reply update text] := by
  simp [newEffects, Flow.world, World.emit]

theorem newEffects_ret_self (w : World) : newEffects w (Flow.ret w : Flow Unit) = [] := by
  simp [newEffects, Flow.world]

/-- C1, as amended: for a `/setrotor` or `/setloop` message with exactly one argument, from
any chat. (a) A rotation task is started only if the message comes from the configured chat,
no rotation is in progress and the argument parses as an integer from 0 to 359. (b) A
message of another chat is ignored: `handleUpdate` returns at once. (c) Whenever the flag is
set or the argument does not parse to 0..359, there is no device exchange, no picture load
and no task, and the context, the flag included, is as before; for the configured chat the
update is answered with one text message and `handleUpdate` returns. (d) When the message
comes from the configured chat, the command is accepted, the position query reads a
position and, if that position is between 0 and 360, the picture of the announcement loads,
exactly one task is started, for the device of the command and the target of the argument,
after the two exchanges of the query. -/
theorem handleUpdate_rotation_command (net : Nat → GetResult) (disk : Nat → String → Bool)
    (update : Update) (w : World) (command cmd arg : String)
    (hcmd : command = "/setrotor" ∨ command = "/setloop")
    (hpre : HasPrefix update.Text command = true)
    (htok : Split update.Text ' ' = [cmd, arg]) :
    (startedRotations (newEffects w (handleUpdate net disk update w)) ≠ [] →
        update.ChatID = w.context.TelegramChat ∧ rotationAccepted w arg)
      ∧ (update.ChatID ≠ w.context.TelegramChat → handleUpdate net disk update w = Flow.ret w)
      ∧ (¬ rotationAccepted w arg →
          exchangeCount (newEffects w (handleUpdate net disk update w)) = 0
          ∧ startedRotations (newEffects w (handleUpdate net disk update w)) = []
          ∧ (handleUpdate net disk update w).world.requests = w.requests
          ∧ (handleUpdate net disk update w).world.loads = w.loads
          ∧ (handleUpdate net disk update w).world.context = w.context)
      ∧ (update.ChatID = w.context.TelegramChat → ¬ rotationAccepted w arg →
          ∃ text, handleUpdate net disk update w = Flow.ret (w.emit (reply update text)))
      ∧ (∀ t d, update.ChatID = w.context.TelegramChat →
          w.context.rotationInProgress = false → Atoi arg = some t → 0 ≤ t → t ≤ 359 →
          polledDegrees (net w.requests) (net (w.requests + 1)) = some d →
          (0 ≤ d ∧ d ≤ 360 →
            disk w.loads (w.context.AssetDir ++ "/" ++ commandPicture command) = true) →
          startedRotations (newEffects w (handleUpdate net disk update w))
              = [(commandAddress w.context command, t)]
          ∧ exchangeCount (newEffects w (handleUpdate net disk update w)) = 2
          ∧ (handleUpdate net disk update w).world.context = w.context) := by
  have hsame : update.ChatID = w.context.TelegramChat → ¬ rotationAccepted w arg →
      ∃ text, handleUpdate net disk update w = Flow.ret (w.emit (reply update text)) := by
    intro hchat hrej
    rw [handleUpdate_command net disk update w command hcmd hchat hpre]
    rcases setBlock_rejected net disk command (commandAddress w.context command)
      (commandPicture command) update w cmd arg hpre htok hrej with h | h
    · exact ⟨_, h⟩
    · exact ⟨_, h⟩
  have hrejected : ¬ rotationAccepted w arg →
      exchangeCount (newEffects w (handleUpdate net disk update w)) = 0
      ∧ startedRotations (newEffects w (handleUpdate net disk update w)) = []
      ∧ (handleUpdate net disk update w).world.requests = w.requests
      ∧ (handleUpdate net disk update w).world.loads = w.loads
      ∧ (handleUpdate net disk update w).world.context = w.context := by
    intro hrej
    by_cases hchat : update.ChatID = w.context.TelegramChat
    · obtain ⟨text, h⟩ := hsame hchat hrej
      rw [h, newEffects_emit_reply]
      exact ⟨rfl, rfl, rfl, rfl, rfl⟩
    · rw [handleUpdate_other_chat net disk update w hchat, newEffects_ret_self]
      exact ⟨rfl, rfl, rfl, rfl, rfl⟩
  refine ⟨?_, handleUpdate_other_chat net disk update w, hrejected, hsame, ?_⟩
  · intro hstarted
    constructor
    · by_contra hchat
      rw [handleUpdate_other_chat net disk update w hchat, newEffects_ret_self] at hstarted
      exact hstarted rfl
    · by_contra hrej
      exact hstarted (hrejected hrej).2.1
  · intro t d hchat hflag hat h0 h359 hd hdisk
    rw [handleUpdate_command net disk update w command hcmd hchat hpre]
    rw [setBlock_accepted net disk command _ _ update w cmd arg t hpre htok hflag hat h0 h359]
    rw [getRotatorStatus_of_polledDegrees net _ w d hd]
    simp only [Flow.bind, newEffects]
    by_cases hdeg : d ≥ 0 ∧ d ≤ 360
    · have hload := hdisk hdeg
      simp only [hdeg, and_self, if_true, draw, hload, Flow.bind, Flow.world, World.emit,
        World.polled, World.request, World.loaded, List.append_assoc, List.drop_left]
      exact ⟨rfl, rfl, trivial⟩
    · simp only [hdeg, if_false, Flow.bind, Flow.world, World.emit, World.polled,
        World.request, List.append_assoc, List.drop_left]
      exact ⟨rfl, rfl, trivial⟩

theorem exampleWorld_accepts : rotationAccepted exampleWorld "90" :=
  ⟨rfl, 90, by decide, by decide, by decide⟩

theorem worldWithoutAssets_accepts : rotationAccepted worldWithoutAssets "90" :=
  ⟨rfl, 90, by decide, by decide, by decide⟩

/-- Witness of C1: `/setrotor 90` from the configured chat, no rotation in progress, the
rotator reporting 287 degrees and the picture on the disk: one task is started, for the
rotator and the target 90. -/
theorem handleUpdate_rotation_command_witness :
    startedRotations (newEffects exampleWorld
          (handleUpdate deviceAt287 diskComplete exampleUpdate exampleWorld))
        = [("10.0.0.2", 90)]
      ∧ exchangeCount (newEffects exampleWorld
          (handleUpdate deviceAt287 diskComplete exampleUpdate exampleWorld)) = 2
      ∧ (handleUpdate deviceAt287 diskComplete exampleUpdate exampleWorld).world.context
          = exampleWorld.context :=
  (handleUpdate_rotation_command deviceAt287 diskComplete exampleUpdate exampleWorld "/setrotor"
    "/setrotor" "90" (Or.inl rfl) (by decide) (by decide)).2.2.2.2 90 287 rfl rfl (by decide)
    (by decide) (by decide) (by decide) (fun _ => rfl)

/-- Counterexample to C1 as stated: the command `/setrotor 90` with no rotation in progress
satisfies the acceptance condition, and still no rotation task is started (1) when the
message comes from chat 5 while the configured chat is 7, because `handleUpdate` returns
at once, (2) when it comes from the configured chat and the rotator cannot be reached,
because the position query panics before the `go` statement, and (3) when the rotator
reports 287 degrees and the picture `NDEF/locator_opti.png` does not load, because `draw`
panics before the `go` statement. -/
theorem handleUpdate_acceptance_not_sufficient :
    Split foreignUpdate.Text ' ' = ["/setrotor", "90"]
      ∧ handleUpdate deviceAt287 diskComplete foreignUpdate exampleWorld = Flow.ret exampleWorld
      ∧ ¬ (startedRotations (newEffects exampleWorld
              (handleUpdate deviceAt287 diskComplete foreignUpdate exampleWorld)) ≠ []
            ↔ rotationAccepted exampleWorld "90")
      ∧ handleUpdate deviceUnreachable diskComplete exampleUpdate exampleWorld
          = Flow.panic Panic.nilPointerDereference
              (exampleWorld.request "http://10.0.0.2/rotatorcontrol/set/power/on")
      ∧ ¬ (startedRotations (newEffects exampleWorld
              (handleUpdate deviceUnreachable diskComplete exampleUpdate exampleWorld)) ≠ []
            ↔ rotationAccepted exampleWorld "90")
      ∧ handleUpdate deviceAt287 diskEmpty exampleUpdate worldWithoutAssets
          = Flow.panic Panic.nilPointerDereference
              ((worldWithoutAssets.polled "10.0.0.2").loaded)
      ∧ ¬ (startedRotations (newEffects worldWithoutAssets
              (handleUpdate deviceAt287 diskEmpty exampleUpdate worldWithoutAssets)) ≠ []
            ↔ rotationAccepted worldWithoutAssets "90") := by
  have h1 : handleUpdate deviceAt287 diskComplete foreignUpdate exampleWorld
      = Flow.ret exampleWorld := by
    decide
  have h2 : handleUpdate deviceUnreachable diskComplete exampleUpdate exampleWorld
      = Flow.panic Panic.nilPointerDereference
          (exampleWorld.request "http://10.0.0.2/rotatorcontrol/set/power/on") := by
    decide
  have h3 : handleUpdate deviceAt287 diskEmpty exampleUpdate worldWithoutAssets
      = Flow.panic Panic.nilPointerDereference
          ((worldWithoutAssets.polled "10.0.0.2").loaded) := by
    decide
  refine ⟨by decide, h1, ?_, h2, ?_, h3, ?_⟩
  · rw [h1]
    intro h
    exact h.mpr exampleWorld_accepts rfl
  · rw [h2]
    intro h
    exact h.mpr exampleWorld_accepts rfl
  · rw [h3]
    intro h
    exact h.mpr worldWithoutAssets_accepts rfl

/-! ## Further examples -/

theorem Atoi_examples :
    Atoi "287" = some 287 ∧ Atoi "+90" = some 90 ∧ Atoi "-1" = some (-1) ∧ Atoi "0359" = some 359
      ∧ Atoi "" = none ∧ Atoi "-" = none ∧ Atoi "9o" = none ∧ Atoi "1_0" = none
      ∧ Atoi " 90" = none ∧ Atoi "9223372036854775807" = some 9223372036854775807
      ∧ Atoi "9223372036854775808" = none
      ∧ Atoi "-9223372036854775808" = some (-9223372036854775808) := by
  decide

theorem Decide_counts_bytes :
    len "é" = 2 ∧ (Decide "é").relayOn = true ∧ (Decide "7").relayOn = false
      ∧ (Decide "").relayOn = false := by
  decide

/-- An example of C2: with the device resting at 287 degrees and the target 90, the task
returns through the timeout path and the flag is false afterwards, also when no picture is
on the disk. -/
theorem rotateAndNotify_clears_flag_example :
    ∃ w1, rotateAndNotify deviceAt287 diskEmpty exampleUpdate "10.0.0.2" "locator_opti.png" 90
        worldWithoutAssets = Flow.ret w1 ∧ w1.context.rotationInProgress = false :=
  ((rotateAndNotify_clears_flag deviceAt287 diskEmpty exampleUpdate "10.0.0.2"
    "locator_opti.png" 90 worldWithoutAssets).2.2 (by decide)
    (fun k _ => ⟨287, deviceAt287_reply _ k⟩)
    (Or.inr (fun k _ => by rw [deviceAt287_reply]; decide))).2

/-- An example of C8: in the stream busy, busy, idle the second report adds nothing to the
trace and the third adds the effects of one decision, relay off and antenna `1b`. -/
theorem consumeFlexRabbit_debounce_example :
    (consumeFlexRabbit (fun c => c) exampleWorld [deliveryBusy, deliveryBusy]).trace
        = (consumeFlexRabbit (fun c => c) exampleWorld [deliveryBusy]).trace
      ∧ (consumeFlexRabbit (fun c => c) exampleWorld [deliveryBusy, deliveryBusy, deliveryIdle]).trace
        = (consumeFlexRabbit (fun c => c) exampleWorld [deliveryBusy, deliveryBusy]).trace ++
            (Decide (ToUpper (fun c => c) (deliveryIdle.occupant
              (consumeFlexRabbit (fun c => c) exampleWorld [deliveryBusy, deliveryBusy])))).effects
              exampleWorld.context.Webswitch1216IP exampleWorld.context.TelegramChat
      ∧ switchInvocations
          ((consumeFlexRabbit (fun c => c) exampleWorld
              [deliveryBusy, deliveryBusy, deliveryIdle]).trace.drop
            (consumeFlexRabbit (fun c => c) exampleWorld [deliveryBusy]).trace.length) = 1 :=
  (consumeFlexRabbit_debounce (fun c => c) exampleWorld deliveryBusy).2.2 deliveryBusy
    deliveryIdle (by decide) (by decide)

end RemoteRig
